import Mathlib

/-!
Verification development for the WordPress → Freshdesk integration service
(`app.py`).  The Python code is shallowly embedded: strings are Lean
`String`s (lists of characters), Python dicts holding the form payloads are
association lists with overwrite-on-insert semantics, and the external HTTP
collaborators (Freshdesk ticket creation, contact upsert, HMAC digest) are
abstracted as function parameters.  Python truthiness of a string is
non-emptiness; `str.strip`, `str.lower`, `str.isupper`, `str.title`,
`str.split`, `in` and slicing are re-implemented below with Python's
semantics restricted to ASCII case rules.
-/

/-! ## Character and string primitives (Python semantics) -/

/-- Python whitespace characters (`str.strip` default set, ASCII part). -/
def isSpaceC (c : Char) : Bool :=
  c = ' ' || c = '\t' || c = '\n' || c = '\r' || c = '\x0b' || c = '\x0c'

/-- Lowercase ASCII letter. -/
def isLowerC (c : Char) : Bool := 'a' ≤ c && c ≤ 'z'

/-- Uppercase ASCII letter. -/
def isUpperC (c : Char) : Bool := 'A' ≤ c && c ≤ 'Z'

/-- Cased (ASCII) character. -/
def isCasedC (c : Char) : Bool := isLowerC c || isUpperC c

/-- ASCII lowercasing of one character. -/
def lowerC (c : Char) : Char :=
  if isUpperC c then Char.ofNat (c.toNat + 32) else c

/-- ASCII uppercasing of one character. -/
def upperC (c : Char) : Char :=
  if isLowerC c then Char.ofNat (c.toNat - 32) else c

/-- `str.strip()` on a character list: drop leading and trailing whitespace. -/
def stripChars (l : List Char) : List Char :=
  ((l.dropWhile isSpaceC).reverse.dropWhile isSpaceC).reverse

/-- `str.lower()` on a character list. -/
def lowerChars (l : List Char) : List Char := l.map lowerC

/-- `.replace(' ', '_')` on a character list. -/
def underscoreChars (l : List Char) : List Char :=
  l.map (fun c => if c = ' ' then '_' else c)

/-- `str.isupper()`: at least one cased character and no lowercase one. -/
def isUpperStr (l : List Char) : Bool :=
  l.any isCasedC && l.all (fun c => !isLowerC c)

/-- `str.title()` auxiliary: uppercase a character at a word start,
lowercase it otherwise; `prevCased` tells whether the previous character
was cased. -/
def titleCharsGo : List Char → Bool → List Char
  | [], _ => []
  | c :: cs, prevCased =>
    if isCasedC c then
      (if prevCased then lowerC c else upperC c) :: titleCharsGo cs true
    else
      c :: titleCharsGo cs false

/-- `str.title()` on a character list. -/
def titleChars (l : List Char) : List Char := titleCharsGo l false

/-- Split at the first occurrence of `:` (Python `split(':', 1)`), returning
the part before and the part after; if no colon occurs the whole list is the
first component. -/
def splitColon : List Char → List Char × List Char
  | [] => ([], [])
  | c :: cs =>
    if c = ':' then ([], cs)
    else
      let p := splitColon cs
      (c :: p.1, p.2)

/-- Boolean list-prefix test. -/
def isPrefB : List Char → List Char → Bool
  | [], _ => true
  | _ :: _, [] => false
  | a :: as, b :: bs => a = b && isPrefB as bs

/-- Python substring containment `needle in hay` on character lists. -/
def containsSubC (needle : List Char) : List Char → Bool
  | [] => needle.isEmpty
  | c :: cs => isPrefB needle (c :: cs) || containsSubC needle cs

/-- Python `'\n'`-splitting (`str.split('\n')`): always returns at least one
(possibly empty) chunk, keeps empty chunks. -/
def splitNl : List Char → List (List Char)
  | [] => [[]]
  | c :: cs =>
    if c = '\n' then [] :: splitNl cs
    else
      match splitNl cs with
      | [] => [[c]]
      | l :: ls => (c :: l) :: ls

/-! String-level wrappers. -/

/-- `str.strip()`. -/
def pyStrip (s : String) : String := String.mk (stripChars s.data)

/-- `str.lower()`. -/
def pyLower (s : String) : String := String.mk (lowerChars s.data)

/-- `.replace(' ', '_')`. -/
def pyUnderscore (s : String) : String := String.mk (underscoreChars s.data)

/-- `str.title()`. -/
def pyTitle (s : String) : String := String.mk (titleChars s.data)

/-- Python slicing `s[:n]`. -/
def pyTake (s : String) (n : Nat) : String := String.mk (s.data.take n)

/-- Python `len(s)`. -/
def pyLen (s : String) : Nat := s.data.length

/-- Python `needle in hay` for strings. -/
def containsSub (needle hay : String) : Bool := containsSubC needle.data hay.data

/-- Python `s.split('\n')` as a list of strings. -/
def splitLines (s : String) : List String := (splitNl s.data).map String.mk

/-- Python `'sep'.join(parts)`. -/
def pyJoin (sep : String) : List String → String
  | [] => ""
  | [x] => x
  | x :: y :: rest => x ++ sep ++ pyJoin sep (y :: rest)

/-! ## Python dict model: association list with overwrite-on-insert -/

/-- Dict lookup (`d.get(k)`), `none` when the key is absent. -/
def dlookup (m : List (String × String)) (k : String) : Option String :=
  match m with
  | [] => none
  | p :: rest => if p.1 = k then some p.2 else dlookup rest k

/-- Dict assignment `d[k] = v`: overwrite in place, append if absent. -/
def dinsert (m : List (String × String)) (k v : String) : List (String × String) :=
  match m with
  | [] => [(k, v)]
  | p :: rest => if p.1 = k then (k, v) :: rest else p :: dinsert rest k v

/-- Python `k in d and d[k]` for string-valued dicts: present and non-empty. -/
def dtruthy (m : List (String × String)) (k : String) : Bool :=
  match dlookup m k with
  | some v => v ≠ ""
  | none => false

/-- First hit of an option-valued function over a list (Python loop with
early `return`). -/
def firstSome {α β : Type} (f : α → Option β) : List α → Option β
  | [] => none
  | x :: xs =>
    match f x with
    | some y => some y
    | none => firstSome f xs

/-! ## Text-Block Extractor (`extract_from_structured_message`) -/

/-- Extractor state: the currently open section (Python `current_section`)
and the data collected so far. -/
structure ExState where
  sec : Option String
  data : List (String × String)

/-- Python truthiness of `current_section` (either `None` or a string). -/
def sectionTruthy : Option String → Bool
  | none => false
  | some s => s ≠ ""

/-- The extractor's key rename table (`field_mappings` in
`extract_from_structured_message`). -/
def fieldMappingsEx : List (String × String) :=
  [("contact_name", "contact_name"), ("business_name", "business_name"),
   ("phone", "contact_phone"), ("email", "contact_email"),
   ("equipment_type", "equipment_type"), ("brand", "equipment_brand"),
   ("model", "equipment_model"), ("serial_number", "serial_number"),
   ("store_location", "store_location"), ("preferred_date", "repair_date"),
   ("preferred_time", "repair_time"), ("ticket_id", "internal_ticket_id"),
   ("internal_ticket_id", "internal_ticket_id"),
   ("profile_name", "user_profile_name"),
   ("password", "user_profile_password"),
   ("user_profile_password", "user_profile_password")]

/-- Free-form accumulation: first line is stored, later lines are appended
with the given separator (`extracted_data[k] += sep + line`). -/
def accum (m : List (String × String)) (k sep line : String) :
    List (String × String) :=
  match dlookup m k with
  | none => dinsert m k line
  | some old => dinsert m k (old ++ sep ++ line)

/-- One loop iteration of `extract_from_structured_message` over a raw
line. -/
def exLine (st : ExState) (raw : String) : ExState :=
  let line := stripChars raw.data
  if line = [] then st
  else if line.getLast? = some ':' ∧ isUpperStr line = true then
    { st with sec := some (String.mk (underscoreChars (lowerChars line.dropLast))) }
  else if line.contains ':' = true ∧ sectionTruthy st.sec = true then
    let p := splitColon line
    let key := String.mk (underscoreChars (lowerChars (stripChars p.1)))
    let value := String.mk (stripChars p.2)
    match dlookup fieldMappingsEx key with
    | some tgt =>
        if value ≠ "" ∧ value ≠ "Not provided" then
          { st with data := dinsert st.data tgt value }
        else st
    | none => st
  else if st.sec = some "fault_description" ∧ ¬ line.getLast? = some ':' then
    { st with data := accum st.data "fault_description" " " (String.mk line) }
  else if st.sec = some "additional_comments" ∧ ¬ line.getLast? = some ':' then
    { st with data := accum st.data "additional_comments" " " (String.mk line) }
  else if st.sec = some "accessories_included" ∧ ¬ line.getLast? = some ':' then
    { st with data := accum st.data "accessories" ", " (String.mk line) }
  else st

/-- `extract_from_structured_message`: fold the line processor over
`message.split('\n')`. -/
def extract_from_structured_message (message : String) : List (String × String) :=
  ((splitLines message).foldl exLine ⟨none, []⟩).data

/-! ## Password finder (`find_password_in_message`) -/

/-- The password line patterns scanned by `find_password_in_message`. -/
def passwordPatterns : List String :=
  ["password:", "user profile password:", "profile password:",
   "account password:", "user password:"]

/-- Reserved status tokens rejected by `find_password_in_message`. -/
def reservedFull : List String :=
  ["yes", "no", "provided", "not provided", "true", "false"]

/-- Per-line step of `find_password_in_message`: if some pattern occurs in
the lowercased stripped line (and a colon is present), take the text after
the first colon and accept it when it is non-empty, not a reserved token,
and longer than 2 characters. -/
def findPwLine (rawLine : String) : Option String :=
  let line := stripChars rawLine.data
  if passwordPatterns.any (fun p => containsSubC p.data (lowerChars line) && line.contains ':') then
    let part := String.mk (stripChars (splitColon line).2)
    if part ≠ "" ∧ reservedFull.contains (pyLower part) = false ∧ pyLen part > 2 then
      some part
    else none
  else none

/-- `find_password_in_message`: first qualifying line wins. -/
def find_password_in_message (message : String) : Option String :=
  firstSome findPwLine (splitLines message)

/-! ## Fault-description extraction (`extract_fault_description_from_message`) -/

/-- Loop of `extract_fault_description_from_message`: `capture` is the flag
set once the `FAULT DESCRIPTION:` marker has been seen, `acc` the collected
description lines; an uppercase or `===` line stops the scan. -/
def faultGo : List String → Bool → List String → List String
  | [], _, acc => acc
  | l :: ls, capture, acc =>
    let line := stripChars l.data
    if containsSubC "FAULT DESCRIPTION:".data line then
      let acc' :=
        if line.contains ':' then
          let d := stripChars (splitColon line).2
          if d ≠ [] then acc ++ [String.mk d] else acc
        else acc
      faultGo ls true acc'
    else if capture = true ∧ line ≠ [] ∧ isUpperStr line = false ∧ line.contains ':' = false then
      faultGo ls capture (acc ++ [String.mk line])
    else if capture = true ∧ (isUpperStr line = true ∨ containsSubC "===".data line = true) then
      acc
    else faultGo ls capture acc

/-- `extract_fault_description_from_message`. -/
def extract_fault_description_from_message (message : String) : Option String :=
  if containsSub "FAULT DESCRIPTION:" message then
    let fl := faultGo (splitLines message) false []
    if fl ≠ [] then some (pyJoin " " fl) else none
  else none

/-! ## Field Mapper (`map_wordpress_fields`) -/

/-- The untyped inbound form payload: top-level string fields, an optional
`tags` list (absent is modelled as the empty list, matching
`form_data.get('tags', [])`), and the nested `custom_fields` mapping. -/
structure RawSubmission where
  fields : List (String × String)
  tags : List String
  custom_fields : List (String × String)

/-- The Field Mapper's output: the string-valued entries of `mapped_data`,
plus the `tags` entry (a list, present only when the raw `tags` list is
non-empty). -/
structure MappedRecord where
  strs : List (String × String)
  tagsVal : Option (List String)

/-- Direct top-level rename table (`field_mapping`), in dict order; the
`tags` entry is handled separately since its value is a list. -/
def directFieldPairs : List (String × String) :=
  [("email", "contact_email"), ("name", "contact_name"),
   ("phone", "contact_phone"), ("company", "business_name"),
   ("subject", "subject"), ("message", "full_message"),
   ("priority", "priority"), ("ticket_type", "ticket_type"),
   ("user_profile_password", "user_profile_password"),
   ("password", "user_profile_password")]

/-- Custom-fields rename table (`custom_field_mapping`). -/
def customFieldPairs : List (String × String) :=
  [("equipment_brand", "equipment_brand"), ("equipment_model", "equipment_model"),
   ("serial_number", "serial_number"), ("store_location", "store_location"),
   ("repair_date", "repair_date"), ("repair_time", "repair_time"),
   ("internal_ticket_id", "internal_ticket_id"),
   ("user_profile_password", "user_profile_password")]

/-- One rename-table entry: copy the source key's value (verbatim) to its
internal name when present and truthy. -/
def applyStep (src : List (String × String)) (a : List (String × String))
    (pr : String × String) : List (String × String) :=
  match dlookup src pr.1 with
  | some v => if v ≠ "" then dinsert a pr.2 v else a
  | none => a

/-- Apply a rename table: for each source key present with a truthy value,
write it (verbatim) to its internal name. -/
def applyMapping (src : List (String × String)) (pairs : List (String × String))
    (acc : List (String × String)) : List (String × String) :=
  pairs.foldl (applyStep src) acc

/-- Reserved status tokens of the password resolver inside
`map_wordpress_fields`. -/
def passwordReserved : List String := ["yes", "no", "provided", "not provided"]

/-- The password resolver loop (`password_sources` scan): first candidate
whose trimmed value is non-empty and not a reserved token. -/
def scanPwSources : List (String × List (String × String)) → Option String
  | [] => none
  | (nm, src) :: rest =>
    match dlookup src nm with
    | some raw =>
        if raw ≠ "" then
          let pv := pyStrip raw
          if pv ≠ "" ∧ passwordReserved.contains (pyLower pv) = false then some pv
          else scanPwSources rest
        else scanPwSources rest
    | none => scanPwSources rest

/-- Default `equipment_type`: first tag whose lowercase form is a known
equipment word, title-cased; otherwise the literal `Equipment`. -/
def defaultEquipmentType (tags : List String) : String :=
  match tags.find? (fun t => ["desktop", "laptop", "printer", "server"].contains (pyLower t)) with
  | some t => pyTitle t
  | none => "Equipment"

/-- Default-`equipment_type` step of `map_wordpress_fields` (the
`if 'equipment_type' not in mapped_data` block). -/
def mapperEquipmentStep (tags : List String) (m : List (String × String)) :
    List (String × String) :=
  if (dlookup m "equipment_type").isNone then
    dinsert m "equipment_type" (defaultEquipmentType tags)
  else m

/-- Fault-description fallback step of `map_wordpress_fields` (the
`if 'fault_description' not in mapped_data and 'full_message' in mapped_data`
block). -/
def mapperFaultStep (m : List (String × String)) : List (String × String) :=
  if (dlookup m "fault_description").isNone ∧ (dlookup m "full_message").isSome then
    match extract_fault_description_from_message ((dlookup m "full_message").getD "") with
    | some fd => if fd ≠ "" then dinsert m "fault_description" fd else m
    | none => m
  else m

/-- Seeding step of `map_wordpress_fields`: run the Text-Block Extractor on
the raw `message` when it carries the structured marker. -/
def mapperSeed (form : RawSubmission) : List (String × String) :=
  let message := (dlookup form.fields "message").getD ""
  if containsSub "=== EQUIPMENT REPAIR REQUEST ===" message then
    extract_from_structured_message message
  else []

/-- The password resolver of `map_wordpress_fields` over its six candidate
sources (`password_sources`). -/
def mapperResolved (form : RawSubmission) : Option String :=
  scanPwSources
    [("user_profile_password", form.fields), ("password", form.fields),
     ("user_password", form.fields), ("profile_password", form.fields),
     ("user_profile_password", form.custom_fields), ("password", form.custom_fields)]

/-- Password write-back step of `map_wordpress_fields`: a resolved value
overwrites `user_profile_password`; otherwise the message fallback
(`find_password_in_message` on `full_message`) is consulted, and when it
also finds nothing the record is left untouched (the `Password Provided:
Yes` marker only triggers a log line). -/
def mapperPasswordStep (resolved : Option String) (m : List (String × String)) :
    List (String × String) :=
  match resolved with
  | some pv => dinsert m "user_profile_password" pv
  | none =>
    match dlookup m "full_message" with
    | some fm =>
      match find_password_in_message fm with
      | some pv => dinsert m "user_profile_password" pv
      | none => m
    | none => m

/-- `map_wordpress_fields`: seed from the structured message, apply the two
rename tables, run the password resolver (with message fallback), then the
`equipment_type` and `fault_description` defaults. -/
def map_wordpress_fields (form : RawSubmission) : MappedRecord :=
  let m1 := applyMapping form.fields directFieldPairs (mapperSeed form)
  let tv : Option (List String) := if form.tags ≠ [] then some form.tags else none
  let m2 := applyMapping form.custom_fields customFieldPairs m1
  let m4 := mapperPasswordStep (mapperResolved form) m2
  ⟨mapperFaultStep (mapperEquipmentStep form.tags m4), tv⟩

/-! ## Ticket Description Formatter (`format_ticket_description_clean`) -/

/-- `get_value` helper of the formatter: trimmed value when present and
non-blank, otherwise the default. -/
def get_value (m : List (String × String)) (key default : String) : String :=
  match dlookup m key with
  | none => default
  | some v =>
    let v' := pyStrip v
    if v' = "" then default else v'

/-- `format_ticket_description_clean`: the fixed human-readable ticket
body.  Each `+=` of the Python source is one appended chunk; `\n` is kept
as an explicitly appended separator so the line structure is syntactic. -/
def format_ticket_description_clean (form : List (String × String)) : String :=
  let accessories := get_value form "accessories" "None specified"
  let comments := get_value form "additional_comments" ""
  let profile_name := get_value form "user_profile_name" ""
  let password := get_value form "user_profile_password" ""
  let internal_id := get_value form "internal_ticket_id" ""
  "=== EQUIPMENT REPAIR REQUEST ===" ++ "\n" ++ "\n"
  ++ "CUSTOMER DETAILS:" ++ "\n"
  ++ "Contact Name: " ++ get_value form "contact_name" "Not provided" ++ "\n"
  ++ "Business Name: " ++ get_value form "business_name" "Not provided" ++ "\n"
  ++ "Phone: " ++ get_value form "contact_phone" "Not provided" ++ "\n"
  ++ "Email: " ++ get_value form "contact_email" "Not provided" ++ "\n" ++ "\n"
  ++ "EQUIPMENT INFORMATION:" ++ "\n"
  ++ "Equipment Type: " ++ get_value form "equipment_type" "Not specified" ++ "\n"
  ++ "Brand: " ++ get_value form "equipment_brand" "Not specified" ++ "\n"
  ++ "Model: " ++ get_value form "equipment_model" "Not specified" ++ "\n"
  ++ "Serial Number: " ++ get_value form "serial_number" "Not provided" ++ "\n" ++ "\n"
  ++ "SERVICE DETAILS:" ++ "\n"
  ++ "Store Location: " ++ get_value form "store_location" "Not specified" ++ "\n"
  ++ "Preferred Date: " ++ get_value form "repair_date" "Not specified" ++ "\n"
  ++ "Preferred Time: " ++ get_value form "repair_time" "Not specified" ++ "\n" ++ "\n"
  ++ "FAULT DESCRIPTION:" ++ "\n"
  ++ get_value form "fault_description" "No description provided" ++ "\n" ++ "\n"
  ++ (if accessories ≠ "None specified" then
        "ACCESSORIES INCLUDED:" ++ "\n" ++ accessories ++ "\n" ++ "\n"
      else "")
  ++ (if comments ≠ "" then
        "ADDITIONAL COMMENTS:" ++ "\n" ++ comments ++ "\n" ++ "\n"
      else "")
  ++ (if profile_name ≠ "" ∨ password ≠ "" then
        "USER ACCOUNT:" ++ "\n"
        ++ (if profile_name ≠ "" then "Profile Name: " ++ profile_name ++ "\n" else "")
        ++ (if password ≠ "" then "Password: " ++ password ++ "\n" else "")
        ++ "\n"
      else "")
  ++ (if internal_id ≠ "" then
        "INTERNAL REFERENCE:" ++ "\n"
        ++ "Internal Ticket ID: " ++ internal_id ++ "\n" ++ "\n"
      else "")
  ++ "=== END OF REPAIR REQUEST ==="

/-! ## Ticket Submission Orchestrator (`create_repair_ticket_direct`)

The two external helpdesk collaborators are abstracted: contact upsert is a
function to an optional contact response, and the upstream ticket-creation
POST is a boolean success oracle on the payload. -/

/-- Response of `create_or_update_contact`: `none` models a `None` return,
`some` a parsed JSON body with an optional numeric `id`. -/
structure ContactResp where
  id : Option Nat

/-- Payload for the contact upsert call. -/
structure ContactData where
  name : String
  email : String
  phone : Option String
deriving DecidableEq

/-- The outbound ticket payload (`ticket_data_v1`/`ticket_data_v2`).
Popped keys are modelled as `none`. -/
structure TicketData where
  subject : String
  description : String
  email : Option String
  name : Option String
  phone : Option String
  priority : Nat
  status : Nat
  source : Nat
  ticketType : String
  tags : List String
  requester_id : Option Nat
deriving DecidableEq

/-- `create_freshdesk_ticket`: configuration guard, then the internal
email-presence guard (which fires before any network call), then the
upstream POST, abstracted as the success oracle `upstream`. -/
def create_freshdesk_ticket (cfgOK : Bool) (upstream : TicketData → Bool)
    (td : TicketData) : Bool × Option String :=
  if !cfgOK then (false, some "Freshdesk configuration incomplete")
  else
    match td.email with
    | none => (false, some "Email field is empty before sending to Freshdesk")
    | some e =>
      if e = "" then (false, some "Email field is empty before sending to Freshdesk")
      else if upstream td then (true, none)
      else (false, some "upstream ticket creation failed")

/-- The subject parts built by `create_repair_ticket_direct` (before
`" ".join` and truncation). -/
def subjectParts (form : List (String × String)) : List String :=
  let equipment := pyStrip ((dlookup form "equipment_type").getD "Equipment")
  let brand := pyStrip ((dlookup form "equipment_brand").getD "")
  let customer := pyStrip ((dlookup form "contact_name").getD "Customer")
  let internal_id := pyStrip ((dlookup form "internal_ticket_id").getD "")
  [if equipment ≠ "" then equipment else "Equipment"]
  ++ (if brand ≠ "" then [brand] else [])
  ++ ["- " ++ customer]
  ++ (if internal_id ≠ "" then ["(Ref: " ++ internal_id ++ ")"] else [])

/-- The untruncated subject string. -/
def buildSubject (form : List (String × String)) : String :=
  pyJoin " " (subjectParts form)

/-- `ticket_data_v1` as built by `create_repair_ticket_direct`. -/
def buildTicketV1 (form : List (String × String)) : TicketData :=
  let equipment := pyStrip ((dlookup form "equipment_type").getD "Equipment")
  let customer := pyStrip ((dlookup form "contact_name").getD "Customer")
  let email := pyStrip ((dlookup form "contact_email").getD "")
  let phone := pyStrip ((dlookup form "contact_phone").getD "")
  { subject := pyTake (buildSubject form) 100
    description := format_ticket_description_clean form
    email := some email
    name := some (pyTake customer 50)
    phone := if phone ≠ "" then some (pyTake phone 20) else none
    priority := 3
    status := 2
    source := 7
    ticketType := "Incident"
    tags := ["equipment_repair", "wordpress", "1cyber",
             if equipment ≠ "" then pyLower equipment else "equipment",
             pyUnderscore (pyLower ((dlookup form "store_location").getD "unknown"))]
    requester_id := none }

/-- Result of one orchestrator run, instrumented with the payloads handed
to `create_freshdesk_ticket` and whether the contact upsert was invoked. -/
structure OrchRun where
  success : Bool
  error : Option String
  attempts : List TicketData
  contactCalled : Bool

/-- `create_repair_ticket_direct`: validation, contact upsert, ticket
attempt one, and the single `requester_id` fallback attempt. -/
def create_repair_ticket_direct (contactO : ContactData → Option ContactResp)
    (cfgOK : Bool) (upstream : TicketData → Bool)
    (form : List (String × String)) : OrchRun :=
  let customer := pyStrip ((dlookup form "contact_name").getD "Customer")
  let email := pyStrip ((dlookup form "contact_email").getD "")
  if email = "" then ⟨false, some "Email is required", [], false⟩
  else if customer = "" then ⟨false, some "Customer name is required", [], false⟩
  else
    let phone := pyStrip ((dlookup form "contact_phone").getD "")
    let contact_result := contactO ⟨customer, email, if phone ≠ "" then some phone else none⟩
    let v1 := buildTicketV1 form
    match v1.email with
    | none => ⟨false, some "Final email validation failed", [], true⟩
    | some e =>
      if e = "" ∨ pyStrip e = "" then ⟨false, some "Final email validation failed", [], true⟩
      else
        let r1 := create_freshdesk_ticket cfgOK upstream v1
        if r1.1 = false ∧ contact_result.isSome then
          match contact_result with
          | some c =>
            match c.id with
            | some i =>
              if i ≠ 0 then
                let v2 : TicketData := { v1 with requester_id := some i,
                                                 email := none, name := none, phone := none }
                let r2 := create_freshdesk_ticket cfgOK upstream v2
                ⟨r2.1, r2.2, [v1, v2], true⟩
              else ⟨r1.1, r1.2, [v1], true⟩
            | none => ⟨r1.1, r1.2, [v1], true⟩
          | none => ⟨r1.1, r1.2, [v1], true⟩
        else ⟨r1.1, r1.2, [v1], true⟩

/-- The resolved usable contact id: the fallback branch requires a contact
response carrying a truthy (non-zero) `id`. -/
def resolvedContactId (contactO : ContactData → Option ContactResp)
    (form : List (String × String)) : Option Nat :=
  let customer := pyStrip ((dlookup form "contact_name").getD "Customer")
  let email := pyStrip ((dlookup form "contact_email").getD "")
  let phone := pyStrip ((dlookup form "contact_phone").getD "")
  match contactO ⟨customer, email, if phone ≠ "" then some phone else none⟩ with
  | some c =>
    match c.id with
    | some i => if i ≠ 0 then some i else none
    | none => none
  | none => none

/-! ## Route-level required-field validation (`wordpress_webhook`) -/

/-- The required-field loop of `wordpress_webhook`: first missing or blank
field among `contact_email`, `contact_name`, `fault_description` yields the
rejection message. -/
def validateRequired (m : List (String × String)) : Option String :=
  firstSome
    (fun f => if pyStrip ((dlookup m f).getD "") = "" then some (f ++ " is required") else none)
    ["contact_email", "contact_name", "fault_description"]

/-! ## Webhook signature verification (`verify_webhook_signature` and the
`freshdesk_webhook` gate)

The HMAC-SHA256 hex digest (`hmac.new(secret, payload, sha256).hexdigest()`)
is an external library collaborator, abstracted as the parameter
`hmacHex : secret → payload → digest`. -/

/-- Strip an optional `sha256=` prefix from the supplied signature. -/
def stripSigTag (signature : String) : String :=
  if isPrefB "sha256=".data signature.data then String.mk (signature.data.drop 7)
  else signature

/-- `verify_webhook_signature`: permissive when no secret is configured,
otherwise compare the (prefix-stripped) signature with the digest. -/
def verify_webhook_signature (hmacHex : String → String → String)
    (secret payload signature : String) : Bool :=
  if secret = "" then true
  else stripSigTag signature = hmacHex secret payload

/-- Outcome of the signature gate in the `freshdesk_webhook` handler. -/
inductive GateOutcome where
  | proceed
  | reject403
deriving DecidableEq

/-- The `freshdesk_webhook` gate: verification runs only when a secret is
configured AND a signature header was supplied
(`if WEBHOOK_SECRET and signature:`); a failed verification yields 403. -/
def freshdesk_signature_gate (hmacHex : String → String → String)
    (secret payload signature : String) : GateOutcome :=
  if secret ≠ "" && signature ≠ "" then
    if verify_webhook_signature hmacHex secret payload signature then .proceed
    else .reject403
  else .proceed

/-! ## Basic lemmas about the dict model -/

theorem dlookup_dinsert_self (m : List (String × String)) (k v : String) :
    dlookup (dinsert m k v) k = some v := by
  induction m with
  | nil => simp [dinsert, dlookup]
  | cons p rest ih =>
    by_cases h : p.1 = k
    · simp [dinsert, dlookup, h]
    · simp [dinsert, dlookup, h, ih]

theorem dlookup_dinsert_ne (m : List (String × String)) (k k' v : String)
    (h : k' ≠ k) : dlookup (dinsert m k' v) k = dlookup m k := by
  induction m with
  | nil => simp [dinsert, dlookup, h]
  | cons p rest ih =>
    by_cases hp : p.1 = k'
    · simp [dinsert, dlookup, hp, h]
    · by_cases hk : p.1 = k
      · simp [dinsert, dlookup, hp, hk, Ne.symm h]
      · simp [dinsert, dlookup, hp, hk, ih]

theorem dlookup_accum_ne (m : List (String × String)) (k k' sep line : String)
    (h : k' ≠ k) : dlookup (accum m k' sep line) k = dlookup m k := by
  unfold accum
  cases dlookup m k' with
  | none => exact dlookup_dinsert_ne m k k' line h
  | some old => exact dlookup_dinsert_ne m k k' (old ++ sep ++ line) h

/-! ## Strip lemmas -/

theorem dropWhile_head_false {α : Type} (p : α → Bool) (l : List α) :
    ∀ x ∈ (l.dropWhile p).head?, p x = false := by
  induction l with
  | nil => simp
  | cons a t ih =>
    by_cases h : p a = true
    · rw [List.dropWhile_cons_of_pos h]
      exact ih
    · rw [List.dropWhile_cons_of_neg h]
      intro x hx
      simp only [List.head?_cons, Option.mem_def, Option.some.injEq] at hx
      subst hx
      simpa using h

theorem dropWhile_eq_self_of_head {α : Type} (p : α → Bool) (l : List α)
    (h : ∀ x ∈ l.head?, p x = false) : l.dropWhile p = l := by
  cases l with
  | nil => rfl
  | cons a t =>
    have hpa : p a = false := h a (by simp)
    have hpa' : ¬ p a = true := by simp [hpa]
    rw [List.dropWhile_cons_of_neg hpa']

theorem getLast?_dropWhile {α : Type} (p : α → Bool) (z : List α) (h : α)
    (hh : (z.dropWhile p).getLast? = some h) : z.getLast? = some h := by
  have hne : z.dropWhile p ≠ [] := by
    intro e
    rw [e] at hh
    simp at hh
  calc z.getLast? = (z.takeWhile p ++ z.dropWhile p).getLast? := by
        rw [List.takeWhile_append_dropWhile]
    _ = some h := by rw [List.getLast?_append, hh]; rfl

theorem stripChars_head_false (l : List Char) :
    ∀ x ∈ (stripChars l).head?, isSpaceC x = false := by
  intro x hx
  unfold stripChars at hx
  rw [List.head?_reverse] at hx
  have := getLast?_dropWhile isSpaceC (l.dropWhile isSpaceC).reverse x hx
  rw [List.getLast?_reverse] at this
  exact dropWhile_head_false isSpaceC l x this

theorem stripChars_getLast_false (l : List Char) :
    ∀ x ∈ (stripChars l).getLast?, isSpaceC x = false := by
  intro x hx
  unfold stripChars at hx
  rw [List.getLast?_reverse] at hx
  exact dropWhile_head_false isSpaceC (l.dropWhile isSpaceC).reverse x hx

theorem stripChars_eq_self (l : List Char)
    (h1 : ∀ x ∈ l.head?, isSpaceC x = false)
    (h2 : ∀ x ∈ l.getLast?, isSpaceC x = false) : stripChars l = l := by
  unfold stripChars
  rw [dropWhile_eq_self_of_head isSpaceC l h1]
  rw [dropWhile_eq_self_of_head isSpaceC l.reverse (by simpa using h2)]
  exact l.reverse_reverse

theorem stripChars_idem (l : List Char) :
    stripChars (stripChars l) = stripChars l :=
  stripChars_eq_self _ (stripChars_head_false l) (stripChars_getLast_false l)

theorem pyStrip_idem (s : String) : pyStrip (pyStrip s) = pyStrip s := by
  unfold pyStrip
  exact congrArg String.mk (stripChars_idem s.data)

theorem pyStrip_mk (l : List Char) : pyStrip (String.mk l) = String.mk (stripChars l) := rfl

/-! ## Claim C3: webhook signature gating -/

/-- Concrete stand-in for the HMAC-SHA256 hex-digest collaborator, used to
instantiate the abstract digest parameter in closed statements; its outputs
are never empty. -/
def hmacStub (secret payload : String) : String := secret ++ ":" ++ payload

/-- Claim C3 as stated is false: with a configured secret but an absent
(empty) signature header, `freshdesk_webhook` processes the event even
though the supplied signature does not equal the digest, because the gate
`if WEBHOOK_SECRET and signature:` skips verification for a falsy
signature. -/
theorem C3_counterexample :
    freshdesk_signature_gate hmacStub "topsecret" "body" "" = GateOutcome.proceed
    ∧ stripSigTag "" ≠ hmacStub "topsecret" "body" := by
  constructor
  · rfl
  · decide

/-- Claim C3 (amended): processing proceeds iff no secret is configured, or
no signature header is supplied, or the supplied signature (after stripping
an optional `sha256=` prefix) equals the HMAC digest of the raw body under
the secret; moreover with no configured secret, verification itself always
passes. -/
theorem C3_gate_characterization (hmacHex : String → String → String)
    (secret payload signature : String) :
    (freshdesk_signature_gate hmacHex secret payload signature = GateOutcome.proceed
      ↔ (secret = "" ∨ signature = "" ∨ stripSigTag signature = hmacHex secret payload))
    ∧ (secret = "" → verify_webhook_signature hmacHex secret payload signature = true) := by
  constructor
  · unfold freshdesk_signature_gate verify_webhook_signature
    by_cases hs : secret = ""
    · simp [hs]
    · by_cases hg : signature = ""
      · simp [hs, hg]
      · by_cases hv : stripSigTag signature = hmacHex secret payload
        · simp [hs, hg, hv]
        · simp [hs, hg, hv]
  · intro hs
    unfold verify_webhook_signature
    simp [hs]

/-! ## Claim C8: empty email is rejected before any outbound call -/

/-- Claim C8: when `contact_email` is missing or blank, the route-level
validation rejects citing the email field, and the orchestrator refuses
with `Email is required` before invoking either the contact upsert or any
ticket-creation attempt. -/
theorem C8_empty_email_rejected (contactO : ContactData → Option ContactResp)
    (cfgOK : Bool) (upstream : TicketData → Bool) (form : List (String × String))
    (h : pyStrip ((dlookup form "contact_email").getD "") = "") :
    validateRequired form = some "contact_email is required"
    ∧ create_repair_ticket_direct contactO cfgOK upstream form =
        ⟨false, some "Email is required", [], false⟩ := by
  constructor
  · simp [validateRequired, firstSome, h]
  · simp [create_repair_ticket_direct, h]

/-- Witness for C8 at the spec's example record. -/
theorem C8_witness :
    pyStrip ((dlookup [("contact_email", ""), ("contact_name", "Jane"), ("fault_description", "broken")] "contact_email").getD "") = ""
    ∧ validateRequired [("contact_email", ""), ("contact_name", "Jane"), ("fault_description", "broken")] = some "contact_email is required"
    ∧ create_repair_ticket_direct (fun _ => none) true (fun _ => true)
        [("contact_email", ""), ("contact_name", "Jane"), ("fault_description", "broken")] =
        ⟨false, some "Email is required", [], false⟩ := by
  have h := C8_empty_email_rejected (fun _ => none) true (fun _ => true)
    [("contact_email", ""), ("contact_name", "Jane"), ("fault_description", "broken")]
    (by decide)
  exact ⟨by decide, h.1, h.2⟩

/-! ## Claim C9: ticket subject construction and truncation -/

/-- Claim C9: the subject placed in the payload is exactly the
space-separated join of the subject parts (equipment type defaulting to
`Equipment`, the brand when present, a literal `-` followed by the customer
name, and `(Ref: <id>)` when an internal id is present) truncated to 100
characters, so its length never exceeds 100. -/
theorem C9_subject_construction (form : List (String × String)) :
    (buildTicketV1 form).subject = pyTake (pyJoin " " (subjectParts form)) 100
    ∧ pyLen ((buildTicketV1 form).subject) ≤ 100 := by
  constructor
  · rfl
  · show pyLen (pyTake (buildSubject form) 100) ≤ 100
    simp only [pyLen, pyTake, List.length_take]
    exact min_le_left _ _

/-! ## Claim C10: fixed payload fields and identity truncation -/

/-- Claim C10: for every record, the first outbound payload has priority 3,
status 2, source 7 and type `Incident` (the mapped `priority`/`ticket_type`
entries are never consulted), the requester name is the trimmed customer
name truncated to 50 characters, and the phone, when present, is truncated
to 20. -/
theorem C10_payload_constants (form : List (String × String)) :
    (buildTicketV1 form).priority = 3
    ∧ (buildTicketV1 form).status = 2
    ∧ (buildTicketV1 form).source = 7
    ∧ (buildTicketV1 form).ticketType = "Incident"
    ∧ (buildTicketV1 form).name = some (pyTake (pyStrip ((dlookup form "contact_name").getD "Customer")) 50)
    ∧ (buildTicketV1 form).phone =
        (if pyStrip ((dlookup form "contact_phone").getD "") ≠ "" then
          some (pyTake (pyStrip ((dlookup form "contact_phone").getD "")) 20)
        else none) := by
  exact ⟨rfl, rfl, rfl, rfl, rfl, rfl⟩

/-! ## Claim C6: two-phase ticket creation -/

/-- Normal form of an orchestrator run once the two validation guards have
passed: attempt one on `ticket_data_v1`, then, exactly when attempt one
failed and a usable contact id was resolved, one fallback attempt on the
copied payload with the requester identity replaced. -/
theorem create_repair_run_normal_form (contactO : ContactData → Option ContactResp)
    (cfgOK : Bool) (upstream : TicketData → Bool) (form : List (String × String))
    (hE : pyStrip ((dlookup form "contact_email").getD "") ≠ "")
    (hC : pyStrip ((dlookup form "contact_name").getD "Customer") ≠ "") :
    create_repair_ticket_direct contactO cfgOK upstream form =
      (let v1 := buildTicketV1 form
       let r1 := create_freshdesk_ticket cfgOK upstream v1
       match (if r1.1 = false then resolvedContactId contactO form else none) with
       | some i =>
         let v2 : TicketData := { v1 with requester_id := some i,
                                          email := none, name := none, phone := none }
         let r2 := create_freshdesk_ticket cfgOK upstream v2
         ⟨r2.1, r2.2, [v1, v2], true⟩
       | none => ⟨r1.1, r1.2, [v1], true⟩) := by
  have hmail : (buildTicketV1 form).email = some (pyStrip ((dlookup form "contact_email").getD "")) := rfl
  simp only [create_repair_ticket_direct, resolvedContactId, hmail]
  rw [if_neg hE, if_neg hC]
  rw [if_neg (by
    push_neg
    exact ⟨hE, by rw [pyStrip_idem]; exact hE⟩)]
  rcases hco : contactO ⟨pyStrip ((dlookup form "contact_name").getD "Customer"),
      pyStrip ((dlookup form "contact_email").getD ""),
      if pyStrip ((dlookup form "contact_phone").getD "") ≠ "" then
        some (pyStrip ((dlookup form "contact_phone").getD "")) else none⟩ with _ | c
  · by_cases hr : (create_freshdesk_ticket cfgOK upstream (buildTicketV1 form)).1 = false
    · simp [hr]
    · simp [hr]
  · rcases hid : c.id with _ | i
    · by_cases hr : (create_freshdesk_ticket cfgOK upstream (buildTicketV1 form)).1 = false
      · simp [hr, hid]
      · simp [hr, hid]
    · by_cases hr : (create_freshdesk_ticket cfgOK upstream (buildTicketV1 form)).1 = false
      · by_cases hz : i = 0
        · simp [hr, hid, hz]
        · simp [hr, hid, hz]
      · simp [hr, hid]

/-- Claim C6: the orchestrator makes a second ticket-creation attempt iff
the first attempt failed and a contact id was resolved; the second payload
equals the first except that `email`, `name` and `phone` are removed and
`requester_id` is set; a successful first attempt ends the run, and there
is never a third attempt. -/
theorem C6_fallback_protocol (contactO : ContactData → Option ContactResp)
    (cfgOK : Bool) (upstream : TicketData → Bool) (form : List (String × String))
    (hE : pyStrip ((dlookup form "contact_email").getD "") ≠ "")
    (hC : pyStrip ((dlookup form "contact_name").getD "Customer") ≠ "") :
    (create_repair_ticket_direct contactO cfgOK upstream form).attempts.length ≤ 2
    ∧ ((create_freshdesk_ticket cfgOK upstream (buildTicketV1 form)).1 = true →
        (create_repair_ticket_direct contactO cfgOK upstream form).attempts = [buildTicketV1 form])
    ∧ ((create_repair_ticket_direct contactO cfgOK upstream form).attempts.length = 2 ↔
        ((create_freshdesk_ticket cfgOK upstream (buildTicketV1 form)).1 = false
          ∧ (resolvedContactId contactO form).isSome = true))
    ∧ (∀ i, (create_freshdesk_ticket cfgOK upstream (buildTicketV1 form)).1 = false →
        resolvedContactId contactO form = some i →
        (create_repair_ticket_direct contactO cfgOK upstream form).attempts =
          [buildTicketV1 form,
           { buildTicketV1 form with email := none, name := none, phone := none,
                                     requester_id := some i }]) := by
  rw [create_repair_run_normal_form contactO cfgOK upstream form hE hC]
  by_cases hr : (create_freshdesk_ticket cfgOK upstream (buildTicketV1 form)).1 = false
  · rcases hres : resolvedContactId contactO form with _ | i
    · simp [hr, hres]
    · simp [hr, hres]
  · have hr' : (create_freshdesk_ticket cfgOK upstream (buildTicketV1 form)).1 = true := by
      revert hr
      cases (create_freshdesk_ticket cfgOK upstream (buildTicketV1 form)).1 <;> simp
    simp [hr', hr]

/-- Witness for C6: a failing first attempt with a resolved contact id
produces exactly two attempts. -/
theorem C6_witness :
    (create_repair_ticket_direct (fun _ => some ⟨some 7⟩) true (fun _ => false)
        [("contact_name", "Jane"), ("contact_email", "a@b.com")]).attempts.length = 2 := by
  have h := C6_fallback_protocol (fun _ => some ⟨some 7⟩) true (fun _ => false)
    [("contact_name", "Jane"), ("contact_email", "a@b.com")] (by decide) (by decide)
  exact h.2.2.1.mpr ⟨by decide, by decide⟩

/-! ## Lemmas about the Field Mapper pipeline -/

theorem dlookup_applyStep_ne (src a : List (String × String)) (pr : String × String)
    (k : String) (h : pr.2 ≠ k) : dlookup (applyStep src a pr) k = dlookup a k := by
  cases hl : dlookup src pr.1 with
  | none => simp only [applyStep, hl]
  | some v =>
    simp only [applyStep, hl]
    by_cases hv : v ≠ ""
    · rw [if_pos hv]
      exact dlookup_dinsert_ne a k pr.2 v h
    · rw [if_neg hv]

theorem dlookup_applyStep_absent (src a : List (String × String)) (pr : String × String)
    (k : String) (h : dlookup src pr.1 = none) :
    dlookup (applyStep src a pr) k = dlookup a k := by
  simp only [applyStep, h]

theorem dlookup_applyStep_blank (src a : List (String × String)) (pr : String × String)
    (k : String) (h : dlookup src pr.1 = some "") :
    dlookup (applyStep src a pr) k = dlookup a k := by
  simp only [applyStep, h]
  rw [if_neg (by simp)]

theorem dlookup_applyStep_hit (src a : List (String × String)) (pr : String × String)
    (k v : String) (h : pr.2 = k) (hv : dlookup src pr.1 = some v) (hne : v ≠ "") :
    dlookup (applyStep src a pr) k = some v := by
  simp only [applyStep, hv]
  rw [if_pos hne, h]
  exact dlookup_dinsert_self a k v

theorem dlookup_applyMapping_none (src pairs acc : List (String × String)) (k : String)
    (h : ∀ p ∈ pairs, p.2 = k → (dlookup src p.1 = none ∨ dlookup src p.1 = some "")) :
    dlookup (applyMapping src pairs acc) k = dlookup acc k := by
  induction pairs generalizing acc with
  | nil => rfl
  | cons p ps ih =>
    show dlookup (applyMapping src ps (applyStep src acc p)) k = dlookup acc k
    rw [ih (applyStep src acc p) (fun q hq => h q (List.mem_cons_of_mem p hq))]
    by_cases hk : p.2 = k
    · rcases h p (List.mem_cons_self p ps) hk with h0 | h0
      · exact dlookup_applyStep_absent src acc p k h0
      · exact dlookup_applyStep_blank src acc p k h0
    · exact dlookup_applyStep_ne src acc p k hk

/-- The password resolver rejects a candidate that is absent, falsy, blank
after trimming, or a reserved status token. -/
def pwCandidateFails (src : List (String × String)) (nm : String) : Prop :=
  match dlookup src nm with
  | none => True
  | some w => w = "" ∨ pyStrip w = "" ∨ passwordReserved.contains (pyLower (pyStrip w)) = true

theorem pwCandidateFails_of_absent (src : List (String × String)) (nm : String)
    (h : dlookup src nm = none) : pwCandidateFails src nm := by
  unfold pwCandidateFails
  rw [h]
  trivial

theorem scanPwSources_skip (nm : String) (src : List (String × String))
    (rest : List (String × List (String × String))) (h : pwCandidateFails src nm) :
    scanPwSources ((nm, src) :: rest) = scanPwSources rest := by
  unfold pwCandidateFails at h
  cases hl : dlookup src nm with
  | none => simp only [scanPwSources, hl]
  | some w =>
    rw [hl] at h
    simp only [scanPwSources, hl]
    by_cases hw : w ≠ ""
    · rw [if_pos hw]
      rcases h with h0 | h0 | h0
      · exact absurd h0 hw
      · rw [if_neg (by simp [h0])]
      · rw [if_neg (by intro hc; rw [h0] at hc; exact absurd hc.2 (by decide))]
    · rw [if_neg hw]

theorem scanPwSources_hit (nm : String) (src : List (String × String))
    (rest : List (String × List (String × String))) (v : String)
    (h : dlookup src nm = some v) (hs : pyStrip v ≠ "")
    (hr : passwordReserved.contains (pyLower (pyStrip v)) = false) :
    scanPwSources ((nm, src) :: rest) = some (pyStrip v) := by
  have hv : v ≠ "" := by
    intro e
    apply hs
    rw [e]
    rfl
  simp only [scanPwSources, h]
  rw [if_pos hv]
  exact if_pos ⟨hs, hr⟩

theorem dlookup_mapperEquipmentStep_ne (tags : List String)
    (m : List (String × String)) (k : String) (h : k ≠ "equipment_type") :
    dlookup (mapperEquipmentStep tags m) k = dlookup m k := by
  unfold mapperEquipmentStep
  split
  · exact dlookup_dinsert_ne m k "equipment_type" _ (Ne.symm h)
  · rfl

theorem dlookup_mapperFaultStep_ne (m : List (String × String)) (k : String)
    (h : k ≠ "fault_description") : dlookup (mapperFaultStep m) k = dlookup m k := by
  unfold mapperFaultStep
  split
  · split
    · split
      · exact dlookup_dinsert_ne m k "fault_description" _ (Ne.symm h)
      · rfl
    · rfl
  · rfl

/-! ## Claim C1: top-level password precedence -/

/-- Claim C1 as stated is false: a top-level `password` field with a
non-placeholder value is outranked by a top-level `user_profile_password`
field, which the resolver scans first. -/
theorem C1_counterexample :
    dlookup (map_wordpress_fields
        ⟨[("password", "secret1"), ("user_profile_password", "secret2")], [], []⟩).strs
        "user_profile_password" = some "secret2"
    ∧ pyStrip "secret1" ≠ ""
    ∧ passwordReserved.contains (pyLower (pyStrip "secret1")) = false
    ∧ (some "secret2" : Option String) ≠ some "secret1" := by
  exact ⟨by decide, by decide, by decide, by decide⟩

/-- Claim C1 (amended): when the top-level `password` field holds a
non-placeholder value and the earlier-scanned top-level
`user_profile_password` field does not, the produced record's
`user_profile_password` equals the trimmed `password` value, regardless of
custom-fields or message-body content. -/
theorem C1_top_level_password_wins (form : RawSubmission) (v : String)
    (hpw : dlookup form.fields "password" = some v)
    (hs : pyStrip v ≠ "")
    (hr : passwordReserved.contains (pyLower (pyStrip v)) = false)
    (hupp : pwCandidateFails form.fields "user_profile_password") :
    dlookup (map_wordpress_fields form).strs "user_profile_password" = some (pyStrip v) := by
  have hscan : mapperResolved form = some (pyStrip v) := by
    unfold mapperResolved
    rw [scanPwSources_skip _ _ _ hupp]
    exact scanPwSources_hit _ _ _ v hpw hs hr
  simp only [map_wordpress_fields, hscan, mapperPasswordStep]
  rw [dlookup_mapperFaultStep_ne _ _ (by decide),
      dlookup_mapperEquipmentStep_ne _ _ _ (by decide)]
  exact dlookup_dinsert_self _ _ _

/-- Witness for the amended C1, with conflicting password values both in
`custom_fields` and in the message body. -/
theorem C1_witness :
    dlookup (map_wordpress_fields
        ⟨[("password", " s3cret "), ("message", "password: conflictvalue")], [],
         [("user_profile_password", "customconflict")]⟩).strs
        "user_profile_password" = some "s3cret" := by
  have h := C1_top_level_password_wins
    ⟨[("password", " s3cret "), ("message", "password: conflictvalue")], [],
     [("user_profile_password", "customconflict")]⟩
    " s3cret " (by decide) (by decide) (by decide)
    (pwCandidateFails_of_absent _ _ (by decide))
  rw [h]
  decide

/-! ## Claim C2: reserved status tokens as credentials -/

/-- Claim C2 is right about the intended invariant but the code violates
it: the direct rename table copies a top-level `password` field verbatim,
so the reserved status token `Yes` becomes the record's
`user_profile_password` even though the resolver itself rejects it. -/
theorem C2_status_token_leaks :
    dlookup (map_wordpress_fields ⟨[("password", "Yes")], [], []⟩).strs
        "user_profile_password" = some "Yes"
    ∧ passwordReserved.contains (pyLower "Yes") = true := by
  exact ⟨by decide, by decide⟩

theorem dlookup_mem (m : List (String × String)) (k v : String)
    (h : dlookup m k = some v) : (k, v) ∈ m := by
  induction m with
  | nil => simp [dlookup] at h
  | cons p rest ih =>
    unfold dlookup at h
    by_cases hp : p.1 = k
    · rw [if_pos hp] at h
      have hv : p.2 = v := by
        injection h
      have hpv : p = (k, v) := Prod.ext hp hv
      rw [hpv]
      exact List.mem_cons_self _ _
    · rw [if_neg hp] at h
      exact List.mem_cons_of_mem p (ih h)

theorem dlookup_applyMapping_ne (src pairs acc : List (String × String)) (k : String)
    (h : ∀ p ∈ pairs, p.2 ≠ k) :
    dlookup (applyMapping src pairs acc) k = dlookup acc k :=
  dlookup_applyMapping_none src pairs acc k (fun p hp hpk => absurd hpk (h p hp))

theorem exLine_preserves_foreign_key (st : ExState) (l : String) (k : String)
    (hmap : ∀ p ∈ fieldMappingsEx, p.2 ≠ k)
    (hf : k ≠ "fault_description") (hc : k ≠ "additional_comments")
    (ha : k ≠ "accessories")
    (h : dlookup st.data k = none) : dlookup (exLine st l).data k = none := by
  simp only [exLine]
  split
  · exact h
  · split
    · exact h
    · split
      · split
        · next tgt heq =>
          split
          · have htgt := hmap _ (dlookup_mem fieldMappingsEx _ tgt heq)
            rw [dlookup_dinsert_ne st.data k tgt _ htgt]
            exact h
          · exact h
        · exact h
      · split
        · rw [dlookup_accum_ne st.data k "fault_description" _ _ (Ne.symm hf)]
          exact h
        · split
          · rw [dlookup_accum_ne st.data k "additional_comments" _ _ (Ne.symm hc)]
            exact h
          · split
            · rw [dlookup_accum_ne st.data k "accessories" _ _ (Ne.symm ha)]
              exact h
            · exact h

theorem extract_foreign_key_none (msg : String) (k : String)
    (hmap : ∀ p ∈ fieldMappingsEx, p.2 ≠ k)
    (hf : k ≠ "fault_description") (hc : k ≠ "additional_comments")
    (ha : k ≠ "accessories") :
    dlookup (extract_from_structured_message msg) k = none := by
  unfold extract_from_structured_message
  have hgen : ∀ (lines : List String) (st : ExState), dlookup st.data k = none →
      dlookup ((lines.foldl exLine st)).data k = none := by
    intro lines
    induction lines with
    | nil => intro st h; exact h
    | cons l ls ih =>
      intro st h
      exact ih _ (exLine_preserves_foreign_key st l k hmap hf hc ha h)
  exact hgen (splitLines msg) ⟨none, []⟩ rfl

theorem dlookup_m1_full_message (form : RawSubmission) (seed : List (String × String))
    (hseed : dlookup seed "full_message" = none) :
    dlookup (applyMapping form.fields directFieldPairs seed) "full_message" =
      (match dlookup form.fields "message" with
       | some v => if v ≠ "" then some v else none
       | none => none) := by
  show dlookup (List.foldl (applyStep form.fields) seed directFieldPairs) "full_message" = _
  simp only [directFieldPairs, List.foldl_cons, List.foldl_nil]
  rw [dlookup_applyStep_ne _ _ _ _ (by decide), dlookup_applyStep_ne _ _ _ _ (by decide),
      dlookup_applyStep_ne _ _ _ _ (by decide), dlookup_applyStep_ne _ _ _ _ (by decide)]
  cases hm : dlookup form.fields "message" with
  | none =>
    rw [dlookup_applyStep_absent _ _ _ _ hm]
    rw [dlookup_applyStep_ne _ _ _ _ (by decide), dlookup_applyStep_ne _ _ _ _ (by decide),
        dlookup_applyStep_ne _ _ _ _ (by decide), dlookup_applyStep_ne _ _ _ _ (by decide),
        dlookup_applyStep_ne _ _ _ _ (by decide)]
    exact hseed
  | some mv =>
    by_cases hmv : mv ≠ ""
    · rw [dlookup_applyStep_hit _ _ _ _ mv (by decide) hm hmv]
      simp [hmv]
    · have hmv' : mv = "" := not_not.mp hmv
      subst hmv'
      rw [dlookup_applyStep_blank _ _ _ _ hm]
      rw [dlookup_applyStep_ne _ _ _ _ (by decide), dlookup_applyStep_ne _ _ _ _ (by decide),
          dlookup_applyStep_ne _ _ _ _ (by decide), dlookup_applyStep_ne _ _ _ _ (by decide),
          dlookup_applyStep_ne _ _ _ _ (by decide)]
      rw [hseed]
      simp

/-! ## Claim C5: `Password Provided: Yes` alone yields no password -/

theorem dlookup_mapperSeed_none (form : RawSubmission) (k : String)
    (h : dlookup (extract_from_structured_message ((dlookup form.fields "message").getD "")) k = none) :
    dlookup (mapperSeed form) k = none := by
  simp only [mapperSeed]
  split
  · exact h
  · rfl

theorem dlookup_m1_upp_none (form : RawSubmission) (seed : List (String × String))
    (h1 : dlookup form.fields "user_profile_password" = none)
    (h2 : dlookup form.fields "password" = none)
    (hseed : dlookup seed "user_profile_password" = none) :
    dlookup (applyMapping form.fields directFieldPairs seed) "user_profile_password" = none := by
  rw [dlookup_applyMapping_none]
  · exact hseed
  · intro p hp hpk
    simp only [directFieldPairs, List.mem_cons, List.not_mem_nil, or_false] at hp
    rcases hp with rfl | rfl | rfl | rfl | rfl | rfl | rfl | rfl | rfl | rfl
    all_goals first
      | exact absurd hpk (by decide)
      | exact Or.inl h1
      | exact Or.inl h2

theorem dlookup_m2_upp_none (form : RawSubmission) (m1 : List (String × String))
    (h5 : dlookup form.custom_fields "user_profile_password" = none)
    (hm1 : dlookup m1 "user_profile_password" = none) :
    dlookup (applyMapping form.custom_fields customFieldPairs m1) "user_profile_password" = none := by
  rw [dlookup_applyMapping_none]
  · exact hm1
  · intro p hp hpk
    simp only [customFieldPairs, List.mem_cons, List.not_mem_nil, or_false] at hp
    rcases hp with rfl | rfl | rfl | rfl | rfl | rfl | rfl | rfl
    all_goals first
      | exact absurd hpk (by decide)
      | exact Or.inl h5

/-- Claim C5: when no top-level or custom password-named field is present,
the structured-message extraction yields no password, and the message
fallback finds no extractable value (the message carrying only the
`Password Provided: Yes` status line), the produced record has no
`user_profile_password` key. -/
theorem C5_status_line_yields_no_password (form : RawSubmission)
    (h1 : dlookup form.fields "user_profile_password" = none)
    (h2 : dlookup form.fields "password" = none)
    (h3 : dlookup form.fields "user_password" = none)
    (h4 : dlookup form.fields "profile_password" = none)
    (h5 : dlookup form.custom_fields "user_profile_password" = none)
    (h6 : dlookup form.custom_fields "password" = none)
    (h7 : dlookup (extract_from_structured_message ((dlookup form.fields "message").getD ""))
            "user_profile_password" = none)
    (h8 : find_password_in_message ((dlookup form.fields "message").getD "") = none)
    (h9 : containsSub "Password Provided: Yes" ((dlookup form.fields "message").getD "") = true) :
    dlookup (map_wordpress_fields form).strs "user_profile_password" = none := by
  have hscan : mapperResolved form = none := by
    unfold mapperResolved
    rw [scanPwSources_skip _ _ _ (pwCandidateFails_of_absent _ _ h1),
        scanPwSources_skip _ _ _ (pwCandidateFails_of_absent _ _ h2),
        scanPwSources_skip _ _ _ (pwCandidateFails_of_absent _ _ h3),
        scanPwSources_skip _ _ _ (pwCandidateFails_of_absent _ _ h4),
        scanPwSources_skip _ _ _ (pwCandidateFails_of_absent _ _ h5),
        scanPwSources_skip _ _ _ (pwCandidateFails_of_absent _ _ h6)]
    rfl
  have hseedupp : dlookup (mapperSeed form) "user_profile_password" = none :=
    dlookup_mapperSeed_none form _ h7
  have hseedfm : dlookup (mapperSeed form) "full_message" = none :=
    dlookup_mapperSeed_none form _
      (extract_foreign_key_none _ _ (by decide) (by decide) (by decide) (by decide))
  have hm1upp := dlookup_m1_upp_none form (mapperSeed form) h1 h2 hseedupp
  have hm2upp := dlookup_m2_upp_none form _ h5 hm1upp
  have hm1fm := dlookup_m1_full_message form (mapperSeed form) hseedfm
  have hm2fm : dlookup (applyMapping form.custom_fields customFieldPairs
      (applyMapping form.fields directFieldPairs (mapperSeed form))) "full_message" =
      (match dlookup form.fields "message" with
       | some v => if v ≠ "" then some v else none
       | none => none) := by
    rw [dlookup_applyMapping_ne _ _ _ _ (by decide)]
    exact hm1fm
  simp only [map_wordpress_fields, hscan]
  rw [dlookup_mapperFaultStep_ne _ _ (by decide),
      dlookup_mapperEquipmentStep_ne _ _ _ (by decide)]
  unfold mapperPasswordStep
  cases hm : dlookup form.fields "message" with
  | none =>
    have hfm : dlookup (applyMapping form.custom_fields customFieldPairs
        (applyMapping form.fields directFieldPairs (mapperSeed form))) "full_message" = none := by
      rw [hm2fm, hm]
    rw [hfm]
    exact hm2upp
  | some mv =>
    by_cases hmv : mv ≠ ""
    · have hfm : dlookup (applyMapping form.custom_fields customFieldPairs
          (applyMapping form.fields directFieldPairs (mapperSeed form))) "full_message" = some mv := by
        rw [hm2fm, hm]
        simp [hmv]
      have hfind : find_password_in_message mv = none := by
        rw [hm] at h8
        simpa using h8
      rw [hfm]
      simp only [hfind]
      exact hm2upp
    · have hmv' : mv = "" := not_not.mp hmv
      subst hmv'
      have hfm : dlookup (applyMapping form.custom_fields customFieldPairs
          (applyMapping form.fields directFieldPairs (mapperSeed form))) "full_message" = none := by
        rw [hm2fm, hm]
        simp
      rw [hfm]
      exact hm2upp

/-- Witness for C5: a submission whose message only carries the status line
`Password Provided: Yes`. -/
theorem C5_witness :
    dlookup (map_wordpress_fields
        ⟨[("name", "Jane"), ("email", "a@b.com"),
          ("message", "Fine machine\nPassword Provided: Yes\nthanks")], [], []⟩).strs
        "user_profile_password" = none := by
  exact C5_status_line_yields_no_password
    ⟨[("name", "Jane"), ("email", "a@b.com"),
      ("message", "Fine machine\nPassword Provided: Yes\nthanks")], [], []⟩
    (by decide) (by decide) (by decide) (by decide) (by decide) (by decide)
    (by decide) (by decide) (by decide)

/-! ## Claim C4: non-emptiness of mapped values -/

/-- All values of a record are non-empty strings. -/
def valsNE (m : List (String × String)) : Prop := ∀ p ∈ m, p.2 ≠ ""

theorem valsNE_nil : valsNE [] := by
  intro p hp
  cases hp

theorem mem_dinsert (m : List (String × String)) (k v : String) (p : String × String)
    (h : p ∈ dinsert m k v) : p = (k, v) ∨ p ∈ m := by
  induction m with
  | nil =>
    simp only [dinsert, List.mem_singleton] at h
    exact Or.inl h
  | cons q rest ih =>
    unfold dinsert at h
    by_cases hq : q.1 = k
    · rw [if_pos hq] at h
      rcases List.mem_cons.mp h with h0 | h0
      · exact Or.inl h0
      · exact Or.inr (List.mem_cons_of_mem q h0)
    · rw [if_neg hq] at h
      rcases List.mem_cons.mp h with h0 | h0
      · exact Or.inr (h0 ▸ List.mem_cons_self q rest)
      · rcases ih h0 with h1 | h1
        · exact Or.inl h1
        · exact Or.inr (List.mem_cons_of_mem q h1)

theorem valsNE_dinsert (m : List (String × String)) (k v : String)
    (h : valsNE m) (hv : v ≠ "") : valsNE (dinsert m k v) := by
  intro p hp
  rcases mem_dinsert m k v p hp with h0 | h0
  · rw [h0]
    exact hv
  · exact h p h0

theorem string_eq_empty_of_data (s : String) (h : s.data = []) : s = "" :=
  congrArg String.mk h

theorem string_append_ne_right (a b : String) (hb : b ≠ "") : a ++ b ≠ "" := by
  intro h
  apply hb
  have hd : (a ++ b).data = [] := by rw [h]
  rw [String.data_append] at hd
  exact string_eq_empty_of_data b (List.append_eq_nil.mp hd).2

theorem valsNE_accum (m : List (String × String)) (k sep line : String)
    (h : valsNE m) (hl : line ≠ "") : valsNE (accum m k sep line) := by
  unfold accum
  cases dlookup m k with
  | none => exact valsNE_dinsert m k line h hl
  | some old =>
    exact valsNE_dinsert m k _ h (string_append_ne_right (old ++ sep) line hl)

theorem string_mk_ne_empty (l : List Char) (h : l ≠ []) : String.mk l ≠ "" :=
  fun e => h (congrArg String.data e)

theorem valsNE_exLine (st : ExState) (l : String) (h : valsNE st.data) :
    valsNE (exLine st l).data := by
  simp only [exLine]
  split
  · exact h
  · split
    · exact h
    · split
      · split
        · split
          · next hcond => exact valsNE_dinsert st.data _ _ h hcond.1
          · exact h
        · exact h
      · next hblank _ _ =>
        split
        · exact valsNE_accum st.data _ _ _ h (string_mk_ne_empty _ hblank)
        · split
          · exact valsNE_accum st.data _ _ _ h (string_mk_ne_empty _ hblank)
          · split
            · exact valsNE_accum st.data _ _ _ h (string_mk_ne_empty _ hblank)
            · exact h

theorem valsNE_extract (msg : String) : valsNE (extract_from_structured_message msg) := by
  unfold extract_from_structured_message
  have hgen : ∀ (lines : List String) (st : ExState), valsNE st.data →
      valsNE ((lines.foldl exLine st)).data := by
    intro lines
    induction lines with
    | nil => intro st h; exact h
    | cons x xs ih => intro st h; exact ih _ (valsNE_exLine st x h)
  exact hgen (splitLines msg) ⟨none, []⟩ valsNE_nil

theorem valsNE_applyStep (src a : List (String × String)) (pr : String × String)
    (h : valsNE a) : valsNE (applyStep src a pr) := by
  unfold applyStep
  split
  · split
    · next hv => exact valsNE_dinsert a _ _ h hv
    · exact h
  · exact h

theorem valsNE_applyMapping (src pairs acc : List (String × String))
    (h : valsNE acc) : valsNE (applyMapping src pairs acc) := by
  induction pairs generalizing acc with
  | nil => exact h
  | cons p ps ih =>
    exact ih (applyStep src acc p) (valsNE_applyStep src acc p h)

theorem scanPwSources_some_ne (l : List (String × List (String × String))) (pv : String)
    (h : scanPwSources l = some pv) : pv ≠ "" := by
  induction l with
  | nil => simp [scanPwSources] at h
  | cons q rest ih =>
    rcases q with ⟨nm, src⟩
    cases hl : dlookup src nm with
    | none =>
      rw [scanPwSources_skip _ _ _ (pwCandidateFails_of_absent _ _ hl)] at h
      exact ih h
    | some w =>
      by_cases hw : w = ""
      · rw [scanPwSources_skip _ _ _ (by
          unfold pwCandidateFails
          rw [hl]
          exact Or.inl hw)] at h
        exact ih h
      · by_cases hps : pyStrip w = ""
        · rw [scanPwSources_skip _ _ _ (by
            unfold pwCandidateFails
            rw [hl]
            exact Or.inr (Or.inl hps))] at h
          exact ih h
        · by_cases hcon : passwordReserved.contains (pyLower (pyStrip w)) = false
          · rw [scanPwSources_hit nm src rest w hl hps hcon] at h
            injection h with h
            rw [← h]
            exact hps
          · rw [scanPwSources_skip _ _ _ (by
              unfold pwCandidateFails
              rw [hl]
              exact Or.inr (Or.inr (Bool.not_eq_false _ |>.mp hcon)))] at h
            exact ih h

theorem findPwLine_some_ne (l : String) (p : String) (h : findPwLine l = some p) :
    p ≠ "" := by
  simp only [findPwLine] at h
  split at h
  · split at h
    · next hcond =>
      injection h with h
      rw [← h]
      exact hcond.1
    · cases h
  · cases h

theorem firstSome_mem {α β : Type} (f : α → Option β) (l : List α) (y : β)
    (h : firstSome f l = some y) : ∃ x ∈ l, f x = some y := by
  induction l with
  | nil => cases h
  | cons x xs ih =>
    unfold firstSome at h
    cases hf : f x with
    | some z =>
      rw [hf] at h
      injection h with h
      exact ⟨x, List.mem_cons_self x xs, by rw [hf, h]⟩
    | none =>
      rw [hf] at h
      rcases ih h with ⟨w, hw, hfw⟩
      exact ⟨w, List.mem_cons_of_mem x hw, hfw⟩

theorem find_password_some_ne (msg : String) (p : String)
    (h : find_password_in_message msg = some p) : p ≠ "" := by
  unfold find_password_in_message at h
  rcases firstSome_mem findPwLine (splitLines msg) p h with ⟨x, _, hx⟩
  exact findPwLine_some_ne x p hx

theorem titleCharsGo_length (l : List Char) (b : Bool) :
    (titleCharsGo l b).length = l.length := by
  induction l generalizing b with
  | nil => rfl
  | cons c cs ih =>
    unfold titleCharsGo
    split
    · simp [ih]
    · simp [ih]

theorem pyTitle_ne_empty (t : String) (h : t ≠ "") : pyTitle t ≠ "" := by
  intro e
  apply h
  apply string_eq_empty_of_data
  have hd : (pyTitle t).data = [] := by rw [e]
  have hlen : t.data.length = 0 := by
    rw [← titleCharsGo_length t.data false]
    exact List.length_eq_zero.mpr hd
  exact List.length_eq_zero.mp hlen

theorem defaultEquipmentType_ne_empty (tags : List String) :
    defaultEquipmentType tags ≠ "" := by
  unfold defaultEquipmentType
  cases hf : tags.find? (fun t => ["desktop", "laptop", "printer", "server"].contains (pyLower t)) with
  | none => decide
  | some t =>
    have hp := List.find?_some hf
    apply pyTitle_ne_empty
    intro e
    rw [e] at hp
    exact absurd hp (by decide)

theorem valsNE_mapperPasswordStep (resolved : Option String) (m : List (String × String))
    (hres : ∀ pv, resolved = some pv → pv ≠ "") (h : valsNE m) :
    valsNE (mapperPasswordStep resolved m) := by
  cases resolved with
  | some pv =>
    simp only [mapperPasswordStep]
    exact valsNE_dinsert _ _ _ h (hres pv rfl)
  | none =>
    simp only [mapperPasswordStep]
    cases hfm : dlookup m "full_message" with
    | none => exact h
    | some fm =>
      show valsNE (match find_password_in_message fm with
        | some pv => dinsert m "user_profile_password" pv
        | none => m)
      cases hfind : find_password_in_message fm with
      | none => exact h
      | some pv => exact valsNE_dinsert _ _ _ h (find_password_some_ne fm pv hfind)

theorem valsNE_mapperEquipmentStep (tags : List String) (m : List (String × String))
    (h : valsNE m) : valsNE (mapperEquipmentStep tags m) := by
  unfold mapperEquipmentStep
  split
  · exact valsNE_dinsert _ _ _ h (defaultEquipmentType_ne_empty tags)
  · exact h

theorem valsNE_mapperFaultStep (m : List (String × String)) (h : valsNE m) :
    valsNE (mapperFaultStep m) := by
  unfold mapperFaultStep
  split
  · split
    · split
      · next hfd => exact valsNE_dinsert _ _ _ h hfd
      · exact h
    · exact h
  · exact h

theorem valsNE_mapperSeed (form : RawSubmission) : valsNE (mapperSeed form) := by
  simp only [mapperSeed]
  split
  · exact valsNE_extract _
  · exact valsNE_nil

/-- Claim C4 as stated is false: directly mapped top-level fields are
copied verbatim, so a value with surrounding whitespace is stored
untrimmed. -/
theorem C4_counterexample :
    dlookup (map_wordpress_fields ⟨[("name", " Jane ")], [], []⟩).strs "contact_name" =
      some " Jane "
    ∧ pyStrip " Jane " ≠ " Jane " := by
  exact ⟨by decide, by decide⟩

/-- Claim C4 (amended): every field present in the produced record is
non-empty (string entries are non-empty strings; the `tags` entry, when
present, is a non-empty list), and fields without a value are omitted
rather than stored as empty — but values are not necessarily trimmed,
since directly mapped top-level and custom fields are copied verbatim. -/
theorem C4_values_nonempty (form : RawSubmission) :
    (∀ k v, dlookup (map_wordpress_fields form).strs k = some v → v ≠ "")
    ∧ (∀ l, (map_wordpress_fields form).tagsVal = some l → l ≠ []) := by
  constructor
  · intro k v hl
    have hm : valsNE (map_wordpress_fields form).strs := by
      simp only [map_wordpress_fields]
      apply valsNE_mapperFaultStep
      apply valsNE_mapperEquipmentStep
      apply valsNE_mapperPasswordStep
      · intro pv hpv
        unfold mapperResolved at hpv
        exact scanPwSources_some_ne _ pv hpv
      · apply valsNE_applyMapping
        apply valsNE_applyMapping
        exact valsNE_mapperSeed form
    exact hm (k, v) (dlookup_mem _ _ _ hl)
  · intro l hl
    simp only [map_wordpress_fields] at hl
    by_cases ht : form.tags ≠ []
    · rw [if_pos ht] at hl
      injection hl with e
      rw [← e]
      exact ht
    · rw [if_neg ht] at hl
      cases hl

/-- Witness for the amended C4 at a concrete mapped field. -/
theorem C4_witness :
    dlookup (map_wordpress_fields ⟨[("name", "Jane")], [], []⟩).strs "contact_name" =
      some "Jane"
    ∧ "Jane" ≠ "" := by
  refine ⟨by decide, ?_⟩
  exact (C4_values_nonempty ⟨[("name", "Jane")], [], []⟩).1 "contact_name" "Jane" (by decide)

/-! ## Claim C7: round-trip of the Formatter through the Extractor

Lemmas about `splitNl` (line splitting), first on generic character
lists. -/

theorem splitNl_ne_nil (l : List Char) : splitNl l ≠ [] := by
  cases l with
  | nil => simp [splitNl]
  | cons c cs =>
    unfold splitNl
    split
    · simp
    · split
      · simp
      · simp

theorem splitNl_append_newline (xs ys : List Char) (h : '\n' ∉ xs) :
    splitNl (xs ++ '\n' :: ys) = xs :: splitNl ys := by
  induction xs with
  | nil => simp [splitNl]
  | cons c cs ih =>
    have hc : ¬ c = '\n' := fun e => h (e ▸ List.mem_cons_self c cs)
    have h' : '\n' ∉ cs := fun hm => h (List.mem_cons_of_mem c hm)
    simp only [List.cons_append, splitNl, if_neg hc, List.append_eq]
    rw [ih h']

theorem splitNl_no_newline (xs : List Char) (h : '\n' ∉ xs) : splitNl xs = [xs] := by
  induction xs with
  | nil => rfl
  | cons c cs ih =>
    have hc : ¬ c = '\n' := fun e => h (e ▸ List.mem_cons_self c cs)
    have h' : '\n' ∉ cs := fun hm => h (List.mem_cons_of_mem c hm)
    simp only [splitNl, if_neg hc]
    rw [ih h']

theorem getLastD_irrel {α : Type} (a : α) (l : List α) (d1 d2 : α) :
    (a :: l).getLastD d1 = (a :: l).getLastD d2 := by
  rw [List.getLastD_cons, List.getLastD_cons]

theorem splitNl_append (A B : List Char) :
    splitNl (A ++ B) =
      (splitNl A).dropLast ++
        (((splitNl A).getLastD []) ++ (splitNl B).headI) :: (splitNl B).tail := by
  induction A with
  | nil =>
    simp only [List.nil_append, splitNl]
    cases hB : splitNl B with
    | nil => exact absurd hB (splitNl_ne_nil B)
    | cons b bs => simp [List.headI]
  | cons c cs ih =>
    by_cases hc : c = '\n'
    · subst hc
      have l1 : splitNl ('\n' :: (cs ++ B)) = [] :: splitNl (cs ++ B) := by
        simp [splitNl]
      have l2 : splitNl ('\n' :: cs) = [] :: splitNl cs := by
        simp [splitNl]
      rw [List.cons_append, l1, l2, ih]
      cases hcs : splitNl cs with
      | nil => exact absurd hcs (splitNl_ne_nil cs)
      | cons x xs =>
        rw [List.dropLast_cons_of_ne_nil (List.cons_ne_nil x xs)]
        rw [show ([] :: x :: xs).getLastD [] = (x :: xs).getLastD [] from
          List.getLastD_cons _ _ _]
        rw [List.cons_append]
    · have l1 : splitNl (c :: (cs ++ B)) =
          (match splitNl (cs ++ B) with
           | [] => [[c]]
           | l :: ls => (c :: l) :: ls) := by
        simp [splitNl, hc]
      have l2 : splitNl (c :: cs) =
          (match splitNl cs with
           | [] => [[c]]
           | l :: ls => (c :: l) :: ls) := by
        simp [splitNl, hc]
      rw [List.cons_append, l1, l2, ih]
      cases hcs : splitNl cs with
      | nil => exact absurd hcs (splitNl_ne_nil cs)
      | cons x xs =>
        cases xs with
        | nil =>
          simp [List.getLastD_cons, List.headI]
        | cons y ys =>
          simp only [List.dropLast_cons_of_ne_nil (List.cons_ne_nil y ys),
            List.cons_append, List.getLastD_cons]

theorem splitNl_append_blocks (A B : List Char) (h : (splitNl A).getLastD [] = []) :
    splitNl (A ++ B) = (splitNl A).dropLast ++ splitNl B := by
  rw [splitNl_append, h]
  cases hB : splitNl B with
  | nil => exact absurd hB (splitNl_ne_nil B)
  | cons b bs => simp [List.headI]

theorem contains_true_of_mem (l : List Char) (a : Char) (h : a ∈ l) :
    l.contains a = true := by
  simp [List.contains, h]

theorem stripChars_cons_space (c : Char) (l : List Char) (h : isSpaceC c = true) :
    stripChars (c :: l) = stripChars l := by
  unfold stripChars
  rw [List.dropWhile_cons_of_pos h]

theorem stripped_head_cond (l : List Char) (h : stripChars l = l) :
    ∀ x ∈ l.head?, isSpaceC x = false := by
  intro x hx
  exact stripChars_head_false l x (by rw [h]; exact hx)

theorem stripped_getLast_cond (l : List Char) (h : stripChars l = l) :
    ∀ x ∈ l.getLast?, isSpaceC x = false := by
  intro x hx
  exact stripChars_getLast_false l x (by rw [h]; exact hx)

theorem isUpperStr_false_of_lower (l : List Char) (c : Char) (hc : c ∈ l)
    (hl : isLowerC c = true) : isUpperStr l = false := by
  unfold isUpperStr
  have hall : l.all (fun x => !isLowerC x) = false := by
    rw [List.all_eq_false]
    exact ⟨c, hc, by simp [hl]⟩
  rw [hall]
  simp

theorem splitColon_append (xs ys : List Char) (h : ':' ∉ xs) :
    splitColon (xs ++ ':' :: ys) = (xs, ys) := by
  induction xs with
  | nil => simp [splitColon]
  | cons c cs ih =>
    have hc : ¬ c = ':' := fun e => h (e ▸ List.mem_cons_self c cs)
    have h' : ':' ∉ cs := fun hm => h (List.mem_cons_of_mem c hm)
    simp only [List.cons_append, splitColon, if_neg hc, List.append_eq]
    rw [ih h']

theorem data_kv_line (label v : String) :
    (label ++ ": " ++ v).data = label.data ++ ':' :: ' ' :: v.data := by
  rw [String.data_append, String.data_append]
  have : ": ".data = [':', ' '] := rfl
  rw [this, List.append_assoc]
  rfl

theorem head?_append_left {α : Type} (A B : List α) (h : A ≠ []) :
    (A ++ B).head? = A.head? := by
  cases A with
  | nil => exact absurd rfl h
  | cons a as => rfl

theorem getLast?_kv_tail (v : List Char) (hv : v ≠ []) (c d : Char) :
    (c :: d :: v).getLast? = v.getLast? := by
  have h1 : c :: d :: v = [c, d] ++ v := rfl
  rw [h1, List.getLast?_append]
  cases hvl : v.getLast? with
  | none => exact absurd (List.getLast?_eq_none_iff.mp hvl) hv
  | some y => rfl

/-- The key/value write performed by the extractor on a `label: value`
line whose label carries no colon. -/
def kvWrite (m : List (String × String)) (label v : String) : List (String × String) :=
  match dlookup fieldMappingsEx (String.mk (underscoreChars (lowerChars label.data))) with
  | some tgt => if v ≠ "" ∧ v ≠ "Not provided" then dinsert m tgt v else m
  | none => m

theorem exLine_kv (st : ExState) (s : String) (hsec : st.sec = some s) (hs : s ≠ "")
    (label v : String)
    (hlab : stripChars label.data = label.data)
    (hlabne : label.data ≠ [])
    (hlabcol : ':' ∉ label.data)
    (hlablow : ∃ c ∈ label.data, isLowerC c = true)
    (hv : stripChars v.data = v.data) (hvne : v.data ≠ []) :
    exLine st (label ++ ": " ++ v) = { st with data := kvWrite st.data label v } := by
  have hdata : (label ++ ": " ++ v).data = label.data ++ ':' :: ' ' :: v.data :=
    data_kv_line label v
  have hline : stripChars (label.data ++ ':' :: ' ' :: v.data) =
      label.data ++ ':' :: ' ' :: v.data := by
    apply stripChars_eq_self
    · rw [head?_append_left _ _ hlabne]
      exact stripped_head_cond label.data hlab
    · rw [List.getLast?_append, getLast?_kv_tail v.data hvne]
      cases hvl : v.data.getLast? with
      | none => exact absurd (List.getLast?_eq_none_iff.mp hvl) hvne
      | some y =>
        intro x hx
        have hxy : x = y := by
          have := hx
          simp only [Option.or, Option.mem_def, Option.some.injEq] at this
          exact this.symm
        rw [hxy]
        exact stripped_getLast_cond v.data hv y (by rw [hvl]; rfl)
  have hne : label.data ++ ':' :: ' ' :: v.data ≠ [] := by
    intro e
    exact hlabne (List.append_eq_nil.mp e).1
  have hupper : isUpperStr (label.data ++ ':' :: ' ' :: v.data) = false := by
    rcases hlablow with ⟨c, hc, hlc⟩
    exact isUpperStr_false_of_lower _ c (List.mem_append_left _ hc) hlc
  have hcontains : (label.data ++ ':' :: ' ' :: v.data).contains ':' = true :=
    contains_true_of_mem _ ':' (List.mem_append_right _ (List.mem_cons_self _ _))
  simp only [exLine, hdata, hline]
  rw [if_neg hne]
  rw [if_neg (by
    intro hcond
    rw [hupper] at hcond
    exact absurd hcond.2 (by decide))]
  rw [if_pos ⟨hcontains, by rw [hsec]; simpa [sectionTruthy] using hs⟩]
  rw [splitColon_append _ _ hlabcol]
  rw [show stripChars (' ' :: v.data) = v.data from by
    rw [stripChars_cons_space ' ' v.data (by decide)]
    exact hv]
  rw [hlab]
  show (match dlookup fieldMappingsEx (String.mk (underscoreChars (lowerChars label.data))) with
    | some tgt =>
      if v ≠ "" ∧ v ≠ "Not provided" then { st with data := dinsert st.data tgt v }
      else st
    | none => st) = { st with data := kvWrite st.data label v }
  unfold kvWrite
  cases dlookup fieldMappingsEx (String.mk (underscoreChars (lowerChars label.data))) with
  | none => rfl
  | some tgt =>
    show (if v ≠ "" ∧ v ≠ "Not provided" then { st with data := dinsert st.data tgt v } else st) =
      { st with data := if v ≠ "" ∧ v ≠ "Not provided" then dinsert st.data tgt v else st.data }
    by_cases hcond : v ≠ "" ∧ v ≠ "Not provided"
    · rw [if_pos hcond, if_pos hcond]
    · rw [if_neg hcond, if_neg hcond]

/-- Executable well-formedness of one record value: when present it is
trimmed, non-empty, newline-free and not the placeholder `Not provided`. -/
def wfValB (r : List (String × String)) (k : String) : Bool :=
  match dlookup r k with
  | none => true
  | some v =>
    (stripChars v.data == v.data) && !v.data.isEmpty && !v.data.contains '\n'
      && !(v == "Not provided")

/-- Executable colon-freeness of one record value (needed for the
free-form sections). -/
def wfColonFreeB (r : List (String × String)) (k : String) : Bool :=
  match dlookup r k with
  | none => true
  | some v => !v.data.contains ':'

theorem wfValB_spec (r : List (String × String)) (k v : String)
    (h : wfValB r k = true) (hl : dlookup r k = some v) :
    stripChars v.data = v.data ∧ v.data ≠ [] ∧ '\n' ∉ v.data ∧ v ≠ "Not provided" := by
  unfold wfValB at h
  rw [hl] at h
  simp only [Bool.and_eq_true, beq_iff_eq, Bool.not_eq_true', List.isEmpty_eq_false,
    List.contains, List.elem_eq_mem, decide_eq_false_iff_not, beq_eq_false_iff_ne, ne_eq] at h
  exact ⟨h.1.1.1, h.1.1.2, h.1.2, h.2⟩

theorem wfColonFreeB_spec (r : List (String × String)) (k v : String)
    (h : wfColonFreeB r k = true) (hl : dlookup r k = some v) : ':' ∉ v.data := by
  unfold wfColonFreeB at h
  rw [hl] at h
  simpa only [Bool.not_eq_true', List.contains, List.elem_eq_mem,
    decide_eq_false_iff_not] using h

theorem gv_none (r : List (String × String)) (k d : String)
    (hl : dlookup r k = none) : get_value r k d = d := by
  simp [get_value, hl]

theorem gv_some (r : List (String × String)) (k d v : String)
    (h : wfValB r k = true) (hl : dlookup r k = some v) : get_value r k d = v := by
  rcases wfValB_spec r k v h hl with ⟨hs, hne, _, _⟩
  simp only [get_value, hl]
  have hps : pyStrip v = v := by
    unfold pyStrip
    rw [hs]
  rw [hps, if_neg (fun e => hne (congrArg String.data e))]

theorem gv_props (r : List (String × String)) (k d : String)
    (h : wfValB r k = true)
    (hd : stripChars d.data = d.data) (hdne : d.data ≠ []) (hdnl : '\n' ∉ d.data) :
    stripChars (get_value r k d).data = (get_value r k d).data ∧
      (get_value r k d).data ≠ [] ∧ '\n' ∉ (get_value r k d).data := by
  cases hl : dlookup r k with
  | none =>
    rw [gv_none r k d hl]
    exact ⟨hd, hdne, hdnl⟩
  | some v =>
    rw [gv_some r k d v h hl]
    rcases wfValB_spec r k v h hl with ⟨h1, h2, h3, _⟩
    exact ⟨h1, h2, h3⟩

theorem kvWrite_eval (m : List (String × String)) (label v tgt : String)
    (h : dlookup fieldMappingsEx (String.mk (underscoreChars (lowerChars label.data))) = some tgt) :
    kvWrite m label v = if v ≠ "" ∧ v ≠ "Not provided" then dinsert m tgt v else m := by
  simp only [kvWrite, h]

theorem exLine_kv_line (st : ExState) (s : String) (hsec : st.sec = some s) (hs : s ≠ "")
    (label tgt v : String)
    (hl1 : stripChars label.data = label.data) (hl2 : label.data ≠ [])
    (hl3 : ':' ∉ label.data) (hl4 : ∃ c ∈ label.data, isLowerC c = true)
    (htgt : dlookup fieldMappingsEx (String.mk (underscoreChars (lowerChars label.data))) = some tgt)
    (hv : stripChars v.data = v.data) (hvne : v.data ≠ []) :
    exLine st (label ++ ": " ++ v) =
      { st with data := if v ≠ "" ∧ v ≠ "Not provided" then dinsert st.data tgt v else st.data } := by
  rw [exLine_kv st s hsec hs label v hl1 hl2 hl3 hl4 hv hvne]
  rw [kvWrite_eval st.data label v tgt htgt]

theorem splitNl_cons_newline (ys : List Char) : splitNl ('\n' :: ys) = [] :: splitNl ys := by
  simp [splitNl]

theorem splitNl_label_line (A B ys : List Char) (hA : '\n' ∉ A) (hB : '\n' ∉ B) :
    splitNl (A ++ (B ++ '\n' :: ys)) = (A ++ B) :: splitNl ys := by
  rw [← List.append_assoc]
  refine splitNl_append_newline (A ++ B) ys ?_
  intro hm
  rcases List.mem_append.mp hm with h | h
  · exact hA h
  · exact hB h

theorem splitNl_opt_chunk (P : Prop) [Decidable P] (BD rest : List Char)
    (L : List (List Char)) (hB : splitNl (BD ++ rest) = L ++ splitNl rest) :
    splitNl ((if P then BD else []) ++ rest) = (if P then L else []) ++ splitNl rest := by
  by_cases hp : P
  · rw [if_pos hp, if_pos hp, hB]
  · rw [if_neg hp, if_neg hp]
    simp

theorem data_empty : "".data = [] := rfl

theorem string_ext (s t : String) (h : s.data = t.data) : s = t := by
  cases s
  cases t
  exact congrArg String.mk h

theorem string_append_assoc (a b c : String) : (a ++ b) ++ c = a ++ (b ++ c) :=
  string_ext _ _ (by simp [String.data_append, List.append_assoc])

theorem string_nil_append (s : String) : "" ++ s = s :=
  string_ext _ _ (by simp [String.data_append, data_empty])

/-- The rendered document, line by line: the unconditional header,
customer, equipment, service and fault sections. -/
def mandatoryLines (r : List (String × String)) : List String :=
  ["=== EQUIPMENT REPAIR REQUEST ===", "",
   "CUSTOMER DETAILS:",
   "Contact Name: " ++ get_value r "contact_name" "Not provided",
   "Business Name: " ++ get_value r "business_name" "Not provided",
   "Phone: " ++ get_value r "contact_phone" "Not provided",
   "Email: " ++ get_value r "contact_email" "Not provided", "",
   "EQUIPMENT INFORMATION:",
   "Equipment Type: " ++ get_value r "equipment_type" "Not specified",
   "Brand: " ++ get_value r "equipment_brand" "Not specified",
   "Model: " ++ get_value r "equipment_model" "Not specified",
   "Serial Number: " ++ get_value r "serial_number" "Not provided", "",
   "SERVICE DETAILS:",
   "Store Location: " ++ get_value r "store_location" "Not specified",
   "Preferred Date: " ++ get_value r "repair_date" "Not specified",
   "Preferred Time: " ++ get_value r "repair_time" "Not specified", "",
   "FAULT DESCRIPTION:",
   get_value r "fault_description" "No description provided", ""]

/-- Rendered accessories block lines. -/
def accLines (r : List (String × String)) : List String :=
  if get_value r "accessories" "None specified" ≠ "None specified" then
    ["ACCESSORIES INCLUDED:", get_value r "accessories" "None specified", ""]
  else []

/-- Rendered additional-comments block lines. -/
def comLines (r : List (String × String)) : List String :=
  if get_value r "additional_comments" "" ≠ "" then
    ["ADDITIONAL COMMENTS:", get_value r "additional_comments" "", ""]
  else []

/-- Rendered user-account block lines. -/
def userLines (r : List (String × String)) : List String :=
  if get_value r "user_profile_name" "" ≠ "" ∨ get_value r "user_profile_password" "" ≠ "" then
    ["USER ACCOUNT:"]
    ++ (if get_value r "user_profile_name" "" ≠ "" then
          ["Profile Name: " ++ get_value r "user_profile_name" ""] else [])
    ++ (if get_value r "user_profile_password" "" ≠ "" then
          ["Password: " ++ get_value r "user_profile_password" ""] else [])
    ++ [""]
  else []

/-- Rendered internal-reference block lines. -/
def intLines (r : List (String × String)) : List String :=
  if get_value r "internal_ticket_id" "" ≠ "" then
    ["INTERNAL REFERENCE:", "Internal Ticket ID: " ++ get_value r "internal_ticket_id" "", ""]
  else []

/-- All lines of the rendered document, in order. -/
def formatLines (r : List (String × String)) : List String :=
  mandatoryLines r ++ accLines r ++ comLines r ++ userLines r ++ intLines r
    ++ ["=== END OF REPAIR REQUEST ==="]

set_option maxRecDepth 20000 in
set_option maxHeartbeats 1600000 in
theorem format_eq_join (r : List (String × String)) :
    format_ticket_description_clean r = pyJoin "\n" (formatLines r) := by
  unfold format_ticket_description_clean formatLines mandatoryLines accLines comLines
    userLines intLines
  by_cases hacc : get_value r "accessories" "None specified" ≠ "None specified" <;>
    by_cases hcom : get_value r "additional_comments" "" ≠ "" <;>
      by_cases hpn : get_value r "user_profile_name" "" ≠ "" <;>
        by_cases hpw : get_value r "user_profile_password" "" ≠ "" <;>
          by_cases hint : get_value r "internal_ticket_id" "" ≠ "" <;>
            simp only [hacc, hcom, hpn, hpw, hint, ne_eq, not_false_iff, not_true,
              ite_true, ite_false, if_true, if_false, or_self, or_true, true_or,
              false_or, or_false, not_not, List.cons_append, List.nil_append,
              List.append_nil, List.singleton_append, pyJoin, string_append_assoc,
              string_nil_append]

theorem splitNl_join (lines : List String) (hne : lines ≠ [])
    (h : ∀ l ∈ lines, '\n' ∉ l.data) :
    splitNl (pyJoin "\n" lines).data = lines.map String.data := by
  induction lines with
  | nil => exact absurd rfl hne
  | cons x xs ih =>
    cases xs with
    | nil =>
      simp only [pyJoin, List.map]
      exact splitNl_no_newline x.data (h x (by simp))
    | cons y ys =>
      simp only [pyJoin] at ih ⊢
      rw [String.data_append, String.data_append]
      rw [show ("\n" : String).data = ['\n'] from rfl]
      rw [List.append_assoc, List.singleton_append]
      rw [splitNl_append_newline _ _ (h x (by simp))]
      rw [ih (by simp) (fun l hl => h l (List.mem_cons_of_mem x hl))]
      rfl

theorem no_nl_append (a b : String) (ha : '\n' ∉ a.data) (hb : '\n' ∉ b.data) :
    '\n' ∉ (a ++ b).data := by
  rw [String.data_append]
  intro hm
  rcases List.mem_append.mp hm with hx | hx
  · exact ha hx
  · exact hb hx

theorem gv_no_nl (r : List (String × String)) (k d : String)
    (h : wfValB r k = true) (hdnl : '\n' ∉ d.data) :
    '\n' ∉ (get_value r k d).data := by
  cases hl : dlookup r k with
  | none =>
    rw [gv_none _ _ _ hl]
    exact hdnl
  | some v =>
    rw [gv_some _ _ _ _ h hl]
    exact (wfValB_spec _ _ _ h hl).2.2.1

theorem mandatoryLines_no_nl (r : List (String × String))
    (h1 : wfValB r "contact_name" = true) (h2 : wfValB r "business_name" = true)
    (h3 : wfValB r "contact_phone" = true) (h4 : wfValB r "contact_email" = true)
    (h5 : wfValB r "equipment_type" = true) (h6 : wfValB r "equipment_brand" = true)
    (h7 : wfValB r "equipment_model" = true) (h8 : wfValB r "serial_number" = true)
    (h9 : wfValB r "store_location" = true) (h10 : wfValB r "repair_date" = true)
    (h11 : wfValB r "repair_time" = true) (h12 : wfValB r "fault_description" = true) :
    ∀ l ∈ mandatoryLines r, '\n' ∉ l.data := by
  intro l hl
  simp only [mandatoryLines, List.mem_cons, List.not_mem_nil, or_false] at hl
  rcases hl with rfl | rfl | rfl | rfl | rfl | rfl | rfl | rfl | rfl | rfl | rfl | rfl
    | rfl | rfl | rfl | rfl | rfl | rfl | rfl | rfl | rfl | rfl
  · decide
  · decide
  · decide
  · exact no_nl_append _ _ (by decide) (gv_no_nl r _ _ h1 (by decide))
  · exact no_nl_append _ _ (by decide) (gv_no_nl r _ _ h2 (by decide))
  · exact no_nl_append _ _ (by decide) (gv_no_nl r _ _ h3 (by decide))
  · exact no_nl_append _ _ (by decide) (gv_no_nl r _ _ h4 (by decide))
  · decide
  · decide
  · exact no_nl_append _ _ (by decide) (gv_no_nl r _ _ h5 (by decide))
  · exact no_nl_append _ _ (by decide) (gv_no_nl r _ _ h6 (by decide))
  · exact no_nl_append _ _ (by decide) (gv_no_nl r _ _ h7 (by decide))
  · exact no_nl_append _ _ (by decide) (gv_no_nl r _ _ h8 (by decide))
  · decide
  · decide
  · exact no_nl_append _ _ (by decide) (gv_no_nl r _ _ h9 (by decide))
  · exact no_nl_append _ _ (by decide) (gv_no_nl r _ _ h10 (by decide))
  · exact no_nl_append _ _ (by decide) (gv_no_nl r _ _ h11 (by decide))
  · decide
  · decide
  · exact gv_no_nl r _ _ h12 (by decide)
  · decide

theorem accLines_no_nl (r : List (String × String))
    (h13 : wfValB r "accessories" = true) :
    ∀ l ∈ accLines r, '\n' ∉ l.data := by
  intro l hl
  unfold accLines at hl
  split at hl
  · simp only [List.mem_cons, List.not_mem_nil, or_false] at hl
    rcases hl with rfl | rfl | rfl
    · decide
    · exact gv_no_nl r _ _ h13 (by decide)
    · decide
  · cases hl

theorem comLines_no_nl (r : List (String × String))
    (h14 : wfValB r "additional_comments" = true) :
    ∀ l ∈ comLines r, '\n' ∉ l.data := by
  intro l hl
  unfold comLines at hl
  split at hl
  · simp only [List.mem_cons, List.not_mem_nil, or_false] at hl
    rcases hl with rfl | rfl | rfl
    · decide
    · exact gv_no_nl r _ _ h14 (by decide)
    · decide
  · cases hl

theorem userLines_no_nl (r : List (String × String))
    (h15 : wfValB r "user_profile_name" = true)
    (h16 : wfValB r "user_profile_password" = true) :
    ∀ l ∈ userLines r, '\n' ∉ l.data := by
  intro l hl
  unfold userLines at hl
  split at hl
  · by_cases hpn : get_value r "user_profile_name" "" ≠ ""
    · rw [if_pos hpn] at hl
      by_cases hpw : get_value r "user_profile_password" "" ≠ ""
      · rw [if_pos hpw] at hl
        simp only [List.cons_append, List.nil_append, List.singleton_append,
          List.mem_cons, List.not_mem_nil, or_false] at hl
        rcases hl with rfl | rfl | rfl | rfl
        · decide
        · exact no_nl_append _ _ (by decide) (gv_no_nl r _ _ h15 (by decide))
        · exact no_nl_append _ _ (by decide) (gv_no_nl r _ _ h16 (by decide))
        · decide
      · rw [if_neg hpw] at hl
        simp only [List.cons_append, List.nil_append, List.singleton_append,
          List.mem_cons, List.not_mem_nil, or_false] at hl
        rcases hl with rfl | rfl | rfl
        · decide
        · exact no_nl_append _ _ (by decide) (gv_no_nl r _ _ h15 (by decide))
        · decide
    · rw [if_neg hpn] at hl
      by_cases hpw : get_value r "user_profile_password" "" ≠ ""
      · rw [if_pos hpw] at hl
        simp only [List.cons_append, List.nil_append, List.singleton_append,
          List.mem_cons, List.not_mem_nil, or_false] at hl
        rcases hl with rfl | rfl | rfl
        · decide
        · exact no_nl_append _ _ (by decide) (gv_no_nl r _ _ h16 (by decide))
        · decide
      · rw [if_neg hpw] at hl
        simp only [List.cons_append, List.nil_append, List.singleton_append,
          List.mem_cons, List.not_mem_nil, or_false] at hl
        rcases hl with rfl | rfl
        · decide
        · decide
  · cases hl

theorem intLines_no_nl (r : List (String × String))
    (h17 : wfValB r "internal_ticket_id" = true) :
    ∀ l ∈ intLines r, '\n' ∉ l.data := by
  intro l hl
  unfold intLines at hl
  split at hl
  · simp only [List.mem_cons, List.not_mem_nil, or_false] at hl
    rcases hl with rfl | rfl | rfl
    · decide
    · exact no_nl_append _ _ (by decide) (gv_no_nl r _ _ h17 (by decide))
    · decide
  · cases hl

theorem formatLines_no_nl (r : List (String × String))
    (h1 : wfValB r "contact_name" = true) (h2 : wfValB r "business_name" = true)
    (h3 : wfValB r "contact_phone" = true) (h4 : wfValB r "contact_email" = true)
    (h5 : wfValB r "equipment_type" = true) (h6 : wfValB r "equipment_brand" = true)
    (h7 : wfValB r "equipment_model" = true) (h8 : wfValB r "serial_number" = true)
    (h9 : wfValB r "store_location" = true) (h10 : wfValB r "repair_date" = true)
    (h11 : wfValB r "repair_time" = true) (h12 : wfValB r "fault_description" = true)
    (h13 : wfValB r "accessories" = true) (h14 : wfValB r "additional_comments" = true)
    (h15 : wfValB r "user_profile_name" = true)
    (h16 : wfValB r "user_profile_password" = true)
    (h17 : wfValB r "internal_ticket_id" = true) :
    ∀ l ∈ formatLines r, '\n' ∉ l.data := by
  intro l hl
  unfold formatLines at hl
  simp only [List.mem_append] at hl
  rcases hl with ((((hm | ha) | hc) | hu) | hi) | he
  · exact mandatoryLines_no_nl r h1 h2 h3 h4 h5 h6 h7 h8 h9 h10 h11 h12 l hm
  · exact accLines_no_nl r h13 l ha
  · exact comLines_no_nl r h14 l hc
  · exact userLines_no_nl r h15 h16 l hu
  · exact intLines_no_nl r h17 l hi
  · simp only [List.mem_cons, List.not_mem_nil, or_false] at he
    rw [he]
    decide

theorem formatLines_ne_nil (r : List (String × String)) : formatLines r ≠ [] := by
  simp [formatLines, mandatoryLines]

theorem splitLines_format (r : List (String × String))
    (h1 : wfValB r "contact_name" = true) (h2 : wfValB r "business_name" = true)
    (h3 : wfValB r "contact_phone" = true) (h4 : wfValB r "contact_email" = true)
    (h5 : wfValB r "equipment_type" = true) (h6 : wfValB r "equipment_brand" = true)
    (h7 : wfValB r "equipment_model" = true) (h8 : wfValB r "serial_number" = true)
    (h9 : wfValB r "store_location" = true) (h10 : wfValB r "repair_date" = true)
    (h11 : wfValB r "repair_time" = true) (h12 : wfValB r "fault_description" = true)
    (h13 : wfValB r "accessories" = true) (h14 : wfValB r "additional_comments" = true)
    (h15 : wfValB r "user_profile_name" = true)
    (h16 : wfValB r "user_profile_password" = true)
    (h17 : wfValB r "internal_ticket_id" = true) :
    splitLines (format_ticket_description_clean r) = formatLines r := by
  unfold splitLines
  rw [format_eq_join r]
  rw [splitNl_join (formatLines r) (formatLines_ne_nil r)
    (formatLines_no_nl r h1 h2 h3 h4 h5 h6 h7 h8 h9 h10 h11 h12 h13 h14 h15 h16 h17)]
  rw [List.map_map]
  have hid : (String.mk ∘ String.data) = id := funext (fun s => rfl)
  rw [hid, List.map_id]

theorem getLast_opt_mem (l : List Char) (c : Char) (h : l.getLast? = some c) : c ∈ l := by
  rw [← List.head?_reverse] at h
  have hm : c ∈ l.reverse := by
    cases hr : l.reverse with
    | nil => rw [hr] at h; cases h
    | cons x xs =>
      rw [hr] at h
      simp only [List.head?, Option.some.injEq] at h
      rw [← h]
      exact List.mem_cons_self _ _
  exact List.mem_reverse.mp hm

theorem contains_false_of_not_mem (l : List Char) (c : Char) (h : c ∉ l) :
    l.contains c = false := by
  simp only [List.contains, List.elem_eq_mem, decide_eq_false_iff_not]
  exact h

theorem exLine_blank (st : ExState) : exLine st "" = st := rfl

theorem exLine_banner (m : List (String × String)) :
    exLine ⟨none, m⟩ "=== EQUIPMENT REPAIR REQUEST ===" = ⟨none, m⟩ := rfl

theorem exLine_marker_internal (m : List (String × String)) :
    exLine ⟨some "internal_reference", m⟩ "=== END OF REPAIR REQUEST ===" =
      ⟨some "internal_reference", m⟩ := rfl

theorem exLine_hdr_customer (st : ExState) :
    exLine st "CUSTOMER DETAILS:" = { st with sec := some "customer_details" } := rfl

theorem exLine_hdr_equipment (st : ExState) :
    exLine st "EQUIPMENT INFORMATION:" = { st with sec := some "equipment_information" } := rfl

theorem exLine_hdr_service (st : ExState) :
    exLine st "SERVICE DETAILS:" = { st with sec := some "service_details" } := rfl

theorem exLine_hdr_fault (st : ExState) :
    exLine st "FAULT DESCRIPTION:" = { st with sec := some "fault_description" } := rfl

theorem exLine_hdr_acc (st : ExState) :
    exLine st "ACCESSORIES INCLUDED:" = { st with sec := some "accessories_included" } := rfl

theorem exLine_hdr_comments (st : ExState) :
    exLine st "ADDITIONAL COMMENTS:" = { st with sec := some "additional_comments" } := rfl

theorem exLine_hdr_user (st : ExState) :
    exLine st "USER ACCOUNT:" = { st with sec := some "user_account" } := rfl

theorem exLine_hdr_internal (st : ExState) :
    exLine st "INTERNAL REFERENCE:" = { st with sec := some "internal_reference" } := rfl

theorem exLine_freeform_fault (st : ExState) (hsec : st.sec = some "fault_description")
    (v : String) (hv : stripChars v.data = v.data) (hvne : v.data ≠ [])
    (hvcol : ':' ∉ v.data) :
    exLine st v = { st with data := accum st.data "fault_description" " " v } := by
  have hlast : ¬ v.data.getLast? = some ':' := by
    intro h
    exact hvcol (getLast_opt_mem _ _ h)
  have hcont : v.data.contains ':' = false := contains_false_of_not_mem _ _ hvcol
  simp only [exLine, hv]
  rw [if_neg hvne]
  rw [if_neg (fun hcond => hlast hcond.1)]
  rw [if_neg (fun hcond => by rw [hcont] at hcond; exact absurd hcond.1 (by decide))]
  rw [if_pos ⟨hsec, hlast⟩]

theorem exLine_freeform_comments (st : ExState) (hsec : st.sec = some "additional_comments")
    (v : String) (hv : stripChars v.data = v.data) (hvne : v.data ≠ [])
    (hvcol : ':' ∉ v.data) :
    exLine st v = { st with data := accum st.data "additional_comments" " " v } := by
  have hlast : ¬ v.data.getLast? = some ':' := by
    intro h
    exact hvcol (getLast_opt_mem _ _ h)
  have hcont : v.data.contains ':' = false := contains_false_of_not_mem _ _ hvcol
  simp only [exLine, hv]
  rw [if_neg hvne]
  rw [if_neg (fun hcond => hlast hcond.1)]
  rw [if_neg (fun hcond => by rw [hcont] at hcond; exact absurd hcond.1 (by decide))]
  rw [if_neg (fun hcond => by rw [hsec] at hcond; exact absurd hcond.1 (by decide))]
  rw [if_pos ⟨hsec, hlast⟩]

theorem exLine_freeform_acc (st : ExState) (hsec : st.sec = some "accessories_included")
    (v : String) (hv : stripChars v.data = v.data) (hvne : v.data ≠ [])
    (hvcol : ':' ∉ v.data) :
    exLine st v = { st with data := accum st.data "accessories" ", " v } := by
  have hlast : ¬ v.data.getLast? = some ':' := by
    intro h
    exact hvcol (getLast_opt_mem _ _ h)
  have hcont : v.data.contains ':' = false := contains_false_of_not_mem _ _ hvcol
  simp only [exLine, hv]
  rw [if_neg hvne]
  rw [if_neg (fun hcond => hlast hcond.1)]
  rw [if_neg (fun hcond => by rw [hcont] at hcond; exact absurd hcond.1 (by decide))]
  rw [if_neg (fun hcond => by rw [hsec] at hcond; exact absurd hcond.1 (by decide))]
  rw [if_neg (fun hcond => by rw [hsec] at hcond; exact absurd hcond.1 (by decide))]
  rw [if_pos ⟨hsec, hlast⟩]

/-- The conditional key/value insert performed by the extractor for a
recognised `Label: value` line. -/
def kvIns (m : List (String × String)) (k v : String) : List (String × String) :=
  if v ≠ "" ∧ v ≠ "Not provided" then dinsert m k v else m

theorem dlookup_kvIns_ne (m : List (String × String)) (k v k' : String) (h : k ≠ k') :
    dlookup (kvIns m k v) k' = dlookup m k' := by
  unfold kvIns
  split
  · exact dlookup_dinsert_ne m k' k v h
  · rfl

theorem dlookup_kvIns_self (m : List (String × String)) (k v : String)
    (h1 : v ≠ "") (h2 : v ≠ "Not provided") :
    dlookup (kvIns m k v) k = some v := by
  unfold kvIns
  rw [if_pos ⟨h1, h2⟩]
  exact dlookup_dinsert_self m k v

theorem exLine_kv_contact_name (st : ExState) (hsec : st.sec = some "customer_details")
    (v : String) (hv : stripChars v.data = v.data) (hvne : v.data ≠ []) :
    exLine st ("Contact Name: " ++ v) =
      { st with data := kvIns st.data "contact_name" v } :=
  exLine_kv_line st "customer_details" hsec (by decide) "Contact Name" "contact_name" v
    (by decide) (by decide) (by decide) (by decide) rfl hv hvne

theorem exLine_kv_business_name (st : ExState) (hsec : st.sec = some "customer_details")
    (v : String) (hv : stripChars v.data = v.data) (hvne : v.data ≠ []) :
    exLine st ("Business Name: " ++ v) =
      { st with data := kvIns st.data "business_name" v } :=
  exLine_kv_line st "customer_details" hsec (by decide) "Business Name" "business_name" v
    (by decide) (by decide) (by decide) (by decide) rfl hv hvne

theorem exLine_kv_contact_phone (st : ExState) (hsec : st.sec = some "customer_details")
    (v : String) (hv : stripChars v.data = v.data) (hvne : v.data ≠ []) :
    exLine st ("Phone: " ++ v) =
      { st with data := kvIns st.data "contact_phone" v } :=
  exLine_kv_line st "customer_details" hsec (by decide) "Phone" "contact_phone" v
    (by decide) (by decide) (by decide) (by decide) rfl hv hvne

theorem exLine_kv_contact_email (st : ExState) (hsec : st.sec = some "customer_details")
    (v : String) (hv : stripChars v.data = v.data) (hvne : v.data ≠ []) :
    exLine st ("Email: " ++ v) =
      { st with data := kvIns st.data "contact_email" v } :=
  exLine_kv_line st "customer_details" hsec (by decide) "Email" "contact_email" v
    (by decide) (by decide) (by decide) (by decide) rfl hv hvne

theorem exLine_kv_equipment_type (st : ExState) (hsec : st.sec = some "equipment_information")
    (v : String) (hv : stripChars v.data = v.data) (hvne : v.data ≠ []) :
    exLine st ("Equipment Type: " ++ v) =
      { st with data := kvIns st.data "equipment_type" v } :=
  exLine_kv_line st "equipment_information" hsec (by decide) "Equipment Type" "equipment_type" v
    (by decide) (by decide) (by decide) (by decide) rfl hv hvne

theorem exLine_kv_equipment_brand (st : ExState) (hsec : st.sec = some "equipment_information")
    (v : String) (hv : stripChars v.data = v.data) (hvne : v.data ≠ []) :
    exLine st ("Brand: " ++ v) =
      { st with data := kvIns st.data "equipment_brand" v } :=
  exLine_kv_line st "equipment_information" hsec (by decide) "Brand" "equipment_brand" v
    (by decide) (by decide) (by decide) (by decide) rfl hv hvne

theorem exLine_kv_equipment_model (st : ExState) (hsec : st.sec = some "equipment_information")
    (v : String) (hv : stripChars v.data = v.data) (hvne : v.data ≠ []) :
    exLine st ("Model: " ++ v) =
      { st with data := kvIns st.data "equipment_model" v } :=
  exLine_kv_line st "equipment_information" hsec (by decide) "Model" "equipment_model" v
    (by decide) (by decide) (by decide) (by decide) rfl hv hvne

theorem exLine_kv_serial_number (st : ExState) (hsec : st.sec = some "equipment_information")
    (v : String) (hv : stripChars v.data = v.data) (hvne : v.data ≠ []) :
    exLine st ("Serial Number: " ++ v) =
      { st with data := kvIns st.data "serial_number" v } :=
  exLine_kv_line st "equipment_information" hsec (by decide) "Serial Number" "serial_number" v
    (by decide) (by decide) (by decide) (by decide) rfl hv hvne

theorem exLine_kv_store_location (st : ExState) (hsec : st.sec = some "service_details")
    (v : String) (hv : stripChars v.data = v.data) (hvne : v.data ≠ []) :
    exLine st ("Store Location: " ++ v) =
      { st with data := kvIns st.data "store_location" v } :=
  exLine_kv_line st "service_details" hsec (by decide) "Store Location" "store_location" v
    (by decide) (by decide) (by decide) (by decide) rfl hv hvne

theorem exLine_kv_repair_date (st : ExState) (hsec : st.sec = some "service_details")
    (v : String) (hv : stripChars v.data = v.data) (hvne : v.data ≠ []) :
    exLine st ("Preferred Date: " ++ v) =
      { st with data := kvIns st.data "repair_date" v } :=
  exLine_kv_line st "service_details" hsec (by decide) "Preferred Date" "repair_date" v
    (by decide) (by decide) (by decide) (by decide) rfl hv hvne

theorem exLine_kv_repair_time (st : ExState) (hsec : st.sec = some "service_details")
    (v : String) (hv : stripChars v.data = v.data) (hvne : v.data ≠ []) :
    exLine st ("Preferred Time: " ++ v) =
      { st with data := kvIns st.data "repair_time" v } :=
  exLine_kv_line st "service_details" hsec (by decide) "Preferred Time" "repair_time" v
    (by decide) (by decide) (by decide) (by decide) rfl hv hvne

theorem exLine_kv_upn (st : ExState) (hsec : st.sec = some "user_account")
    (v : String) (hv : stripChars v.data = v.data) (hvne : v.data ≠ []) :
    exLine st ("Profile Name: " ++ v) =
      { st with data := kvIns st.data "user_profile_name" v } :=
  exLine_kv_line st "user_account" hsec (by decide) "Profile Name" "user_profile_name" v
    (by decide) (by decide) (by decide) (by decide) rfl hv hvne

theorem exLine_kv_upw (st : ExState) (hsec : st.sec = some "user_account")
    (v : String) (hv : stripChars v.data = v.data) (hvne : v.data ≠ []) :
    exLine st ("Password: " ++ v) =
      { st with data := kvIns st.data "user_profile_password" v } :=
  exLine_kv_line st "user_account" hsec (by decide) "Password" "user_profile_password" v
    (by decide) (by decide) (by decide) (by decide) rfl hv hvne

theorem exLine_kv_itid (st : ExState) (hsec : st.sec = some "internal_reference")
    (v : String) (hv : stripChars v.data = v.data) (hvne : v.data ≠ []) :
    exLine st ("Internal Ticket ID: " ++ v) =
      { st with data := kvIns st.data "internal_ticket_id" v } :=
  exLine_kv_line st "internal_reference" hsec (by decide) "Internal Ticket ID" "internal_ticket_id" v
    (by decide) (by decide) (by decide) (by decide) rfl hv hvne

theorem gv_colon_free (r : List (String × String)) (k d : String)
    (h : wfValB r k = true) (hcf : wfColonFreeB r k = true) (hd : ':' ∉ d.data) :
    ':' ∉ (get_value r k d).data := by
  cases hl : dlookup r k with
  | none =>
    rw [gv_none _ _ _ hl]
    exact hd
  | some v =>
    rw [gv_some _ _ _ _ h hl]
    exact wfColonFreeB_spec r k v hcf hl

/-- The extractor's dictionary after processing the mandatory part of a
rendered ticket description. -/
def mMand (r : List (String × String)) : List (String × String) :=
  dinsert
    (kvIns (kvIns (kvIns (kvIns (kvIns (kvIns (kvIns (kvIns (kvIns (kvIns (kvIns []
      "contact_name" (get_value r "contact_name" "Not provided"))
      "business_name" (get_value r "business_name" "Not provided"))
      "contact_phone" (get_value r "contact_phone" "Not provided"))
      "contact_email" (get_value r "contact_email" "Not provided"))
      "equipment_type" (get_value r "equipment_type" "Not specified"))
      "equipment_brand" (get_value r "equipment_brand" "Not specified"))
      "equipment_model" (get_value r "equipment_model" "Not specified"))
      "serial_number" (get_value r "serial_number" "Not provided"))
      "store_location" (get_value r "store_location" "Not specified"))
      "repair_date" (get_value r "repair_date" "Not specified"))
      "repair_time" (get_value r "repair_time" "Not specified"))
    "fault_description" (get_value r "fault_description" "No description provided")

theorem dlookup_mMand_chain_ne (r : List (String × String)) (k : String)
    (h1 : k ≠ "contact_name") (h2 : k ≠ "business_name") (h3 : k ≠ "contact_phone")
    (h4 : k ≠ "contact_email") (h5 : k ≠ "equipment_type") (h6 : k ≠ "equipment_brand")
    (h7 : k ≠ "equipment_model") (h8 : k ≠ "serial_number") (h9 : k ≠ "store_location")
    (h10 : k ≠ "repair_date") (h11 : k ≠ "repair_time") (h12 : k ≠ "fault_description") :
    dlookup (mMand r) k = none := by
  unfold mMand
  rw [dlookup_dinsert_ne _ _ _ _ (Ne.symm h12)]
  rw [dlookup_kvIns_ne _ _ _ _ (Ne.symm h11)]
  rw [dlookup_kvIns_ne _ _ _ _ (Ne.symm h10)]
  rw [dlookup_kvIns_ne _ _ _ _ (Ne.symm h9)]
  rw [dlookup_kvIns_ne _ _ _ _ (Ne.symm h8)]
  rw [dlookup_kvIns_ne _ _ _ _ (Ne.symm h7)]
  rw [dlookup_kvIns_ne _ _ _ _ (Ne.symm h6)]
  rw [dlookup_kvIns_ne _ _ _ _ (Ne.symm h5)]
  rw [dlookup_kvIns_ne _ _ _ _ (Ne.symm h4)]
  rw [dlookup_kvIns_ne _ _ _ _ (Ne.symm h3)]
  rw [dlookup_kvIns_ne _ _ _ _ (Ne.symm h2)]
  rw [dlookup_kvIns_ne _ _ _ _ (Ne.symm h1)]
  rfl

theorem foldl_mandatory (r : List (String × String))
    (h1 : wfValB r "contact_name" = true) (h2 : wfValB r "business_name" = true)
    (h3 : wfValB r "contact_phone" = true) (h4 : wfValB r "contact_email" = true)
    (h5 : wfValB r "equipment_type" = true) (h6 : wfValB r "equipment_brand" = true)
    (h7 : wfValB r "equipment_model" = true) (h8 : wfValB r "serial_number" = true)
    (h9 : wfValB r "store_location" = true) (h10 : wfValB r "repair_date" = true)
    (h11 : wfValB r "repair_time" = true) (h12 : wfValB r "fault_description" = true)
    (hcf : wfColonFreeB r "fault_description" = true) :
    List.foldl exLine ⟨none, []⟩ (mandatoryLines r) =
      ⟨some "fault_description", mMand r⟩ := by
  have p1 := gv_props r "contact_name" "Not provided" h1 (by decide) (by decide) (by decide)
  have p2 := gv_props r "business_name" "Not provided" h2 (by decide) (by decide) (by decide)
  have p3 := gv_props r "contact_phone" "Not provided" h3 (by decide) (by decide) (by decide)
  have p4 := gv_props r "contact_email" "Not provided" h4 (by decide) (by decide) (by decide)
  have p5 := gv_props r "equipment_type" "Not specified" h5 (by decide) (by decide) (by decide)
  have p6 := gv_props r "equipment_brand" "Not specified" h6 (by decide) (by decide) (by decide)
  have p7 := gv_props r "equipment_model" "Not specified" h7 (by decide) (by decide) (by decide)
  have p8 := gv_props r "serial_number" "Not provided" h8 (by decide) (by decide) (by decide)
  have p9 := gv_props r "store_location" "Not specified" h9 (by decide) (by decide) (by decide)
  have p10 := gv_props r "repair_date" "Not specified" h10 (by decide) (by decide) (by decide)
  have p11 := gv_props r "repair_time" "Not specified" h11 (by decide) (by decide) (by decide)
  have p12 := gv_props r "fault_description" "No description provided" h12 (by decide)
    (by decide) (by decide)
  have pfcol : ':' ∉ (get_value r "fault_description" "No description provided").data :=
    gv_colon_free r "fault_description" "No description provided" h12 hcf (by decide)
  have hnone : dlookup
      (kvIns (kvIns (kvIns (kvIns (kvIns (kvIns (kvIns (kvIns (kvIns (kvIns (kvIns []
        "contact_name" (get_value r "contact_name" "Not provided"))
        "business_name" (get_value r "business_name" "Not provided"))
        "contact_phone" (get_value r "contact_phone" "Not provided"))
        "contact_email" (get_value r "contact_email" "Not provided"))
        "equipment_type" (get_value r "equipment_type" "Not specified"))
        "equipment_brand" (get_value r "equipment_brand" "Not specified"))
        "equipment_model" (get_value r "equipment_model" "Not specified"))
        "serial_number" (get_value r "serial_number" "Not provided"))
        "store_location" (get_value r "store_location" "Not specified"))
        "repair_date" (get_value r "repair_date" "Not specified"))
        "repair_time" (get_value r "repair_time" "Not specified"))
      "fault_description" = none := by
    rw [dlookup_kvIns_ne _ _ _ _ (by decide)]
    rw [dlookup_kvIns_ne _ _ _ _ (by decide)]
    rw [dlookup_kvIns_ne _ _ _ _ (by decide)]
    rw [dlookup_kvIns_ne _ _ _ _ (by decide)]
    rw [dlookup_kvIns_ne _ _ _ _ (by decide)]
    rw [dlookup_kvIns_ne _ _ _ _ (by decide)]
    rw [dlookup_kvIns_ne _ _ _ _ (by decide)]
    rw [dlookup_kvIns_ne _ _ _ _ (by decide)]
    rw [dlookup_kvIns_ne _ _ _ _ (by decide)]
    rw [dlookup_kvIns_ne _ _ _ _ (by decide)]
    rw [dlookup_kvIns_ne _ _ _ _ (by decide)]
    rfl
  simp only [mandatoryLines, List.foldl_cons, List.foldl_nil, exLine_banner, exLine_blank,
    exLine_hdr_customer, exLine_hdr_equipment, exLine_hdr_service, exLine_hdr_fault]
  rw [exLine_kv_contact_name _ rfl _ p1.1 p1.2.1]
  rw [exLine_kv_business_name _ rfl _ p2.1 p2.2.1]
  rw [exLine_kv_contact_phone _ rfl _ p3.1 p3.2.1]
  rw [exLine_kv_contact_email _ rfl _ p4.1 p4.2.1]
  rw [exLine_kv_equipment_type _ rfl _ p5.1 p5.2.1]
  rw [exLine_kv_equipment_brand _ rfl _ p6.1 p6.2.1]
  rw [exLine_kv_equipment_model _ rfl _ p7.1 p7.2.1]
  rw [exLine_kv_serial_number _ rfl _ p8.1 p8.2.1]
  rw [exLine_kv_store_location _ rfl _ p9.1 p9.2.1]
  rw [exLine_kv_repair_date _ rfl _ p10.1 p10.2.1]
  rw [exLine_kv_repair_time _ rfl _ p11.1 p11.2.1]
  rw [exLine_freeform_fault _ rfl _ p12.1 p12.2.1 pfcol]
  show (⟨some "fault_description", accum
    (kvIns (kvIns (kvIns (kvIns (kvIns (kvIns (kvIns (kvIns (kvIns (kvIns (kvIns []
      "contact_name" (get_value r "contact_name" "Not provided"))
      "business_name" (get_value r "business_name" "Not provided"))
      "contact_phone" (get_value r "contact_phone" "Not provided"))
      "contact_email" (get_value r "contact_email" "Not provided"))
      "equipment_type" (get_value r "equipment_type" "Not specified"))
      "equipment_brand" (get_value r "equipment_brand" "Not specified"))
      "equipment_model" (get_value r "equipment_model" "Not specified"))
      "serial_number" (get_value r "serial_number" "Not provided"))
      "store_location" (get_value r "store_location" "Not specified"))
      "repair_date" (get_value r "repair_date" "Not specified"))
      "repair_time" (get_value r "repair_time" "Not specified"))
    "fault_description" " "
    (get_value r "fault_description" "No description provided")⟩ : ExState) =
    ⟨some "fault_description", mMand r⟩
  unfold accum
  rw [hnone]
  rfl

theorem gv_props_present (r : List (String × String)) (k : String)
    (h : wfValB r k = true) (hne : get_value r k "" ≠ "") :
    stripChars (get_value r k "").data = (get_value r k "").data ∧
      (get_value r k "").data ≠ [] := by
  cases hl : dlookup r k with
  | none => exact absurd (gv_none r k "" hl) hne
  | some v =>
    rw [gv_some r k "" v h hl]
    rcases wfValB_spec r k v h hl with ⟨a, b, _, _⟩
    exact ⟨a, b⟩

theorem foldl_acc_pos (st : ExState) (r : List (String × String))
    (hcond : get_value r "accessories" "None specified" ≠ "None specified")
    (hv : stripChars (get_value r "accessories" "None specified").data =
      (get_value r "accessories" "None specified").data)
    (hvne : (get_value r "accessories" "None specified").data ≠ [])
    (hvcol : ':' ∉ (get_value r "accessories" "None specified").data) :
    List.foldl exLine st (accLines r) =
      ⟨some "accessories_included",
        accum st.data "accessories" ", " (get_value r "accessories" "None specified")⟩ := by
  unfold accLines
  rw [if_pos hcond]
  simp only [List.foldl_cons, List.foldl_nil, exLine_hdr_acc, exLine_blank]
  rw [exLine_freeform_acc _ rfl _ hv hvne hvcol]

theorem foldl_acc_neg (st : ExState) (r : List (String × String))
    (hcond : ¬ get_value r "accessories" "None specified" ≠ "None specified") :
    List.foldl exLine st (accLines r) = st := by
  unfold accLines
  rw [if_neg hcond]
  rfl

theorem foldl_com_pos (st : ExState) (r : List (String × String))
    (hcond : get_value r "additional_comments" "" ≠ "")
    (hv : stripChars (get_value r "additional_comments" "").data =
      (get_value r "additional_comments" "").data)
    (hvne : (get_value r "additional_comments" "").data ≠ [])
    (hvcol : ':' ∉ (get_value r "additional_comments" "").data) :
    List.foldl exLine st (comLines r) =
      ⟨some "additional_comments",
        accum st.data "additional_comments" " " (get_value r "additional_comments" "")⟩ := by
  unfold comLines
  rw [if_pos hcond]
  simp only [List.foldl_cons, List.foldl_nil, exLine_hdr_comments, exLine_blank]
  rw [exLine_freeform_comments _ rfl _ hv hvne hvcol]

theorem foldl_com_neg (st : ExState) (r : List (String × String))
    (hcond : ¬ get_value r "additional_comments" "" ≠ "") :
    List.foldl exLine st (comLines r) = st := by
  unfold comLines
  rw [if_neg hcond]
  rfl

theorem foldl_user_both (st : ExState) (r : List (String × String))
    (hpn : get_value r "user_profile_name" "" ≠ "")
    (hpw : get_value r "user_profile_password" "" ≠ "")
    (hv1 : stripChars (get_value r "user_profile_name" "").data =
      (get_value r "user_profile_name" "").data)
    (hvne1 : (get_value r "user_profile_name" "").data ≠ [])
    (hv2 : stripChars (get_value r "user_profile_password" "").data =
      (get_value r "user_profile_password" "").data)
    (hvne2 : (get_value r "user_profile_password" "").data ≠ []) :
    List.foldl exLine st (userLines r) =
      ⟨some "user_account",
        kvIns (kvIns st.data "user_profile_name" (get_value r "user_profile_name" ""))
          "user_profile_password" (get_value r "user_profile_password" "")⟩ := by
  unfold userLines
  rw [if_pos (Or.inl hpn), if_pos hpn, if_pos hpw]
  simp only [List.cons_append, List.nil_append, List.singleton_append, List.foldl_cons,
    List.foldl_nil, exLine_hdr_user, exLine_blank]
  rw [exLine_kv_upn _ rfl _ hv1 hvne1]
  rw [exLine_kv_upw _ rfl _ hv2 hvne2]

theorem foldl_user_pn (st : ExState) (r : List (String × String))
    (hpn : get_value r "user_profile_name" "" ≠ "")
    (hpw : ¬ get_value r "user_profile_password" "" ≠ "")
    (hv1 : stripChars (get_value r "user_profile_name" "").data =
      (get_value r "user_profile_name" "").data)
    (hvne1 : (get_value r "user_profile_name" "").data ≠ []) :
    List.foldl exLine st (userLines r) =
      ⟨some "user_account",
        kvIns st.data "user_profile_name" (get_value r "user_profile_name" "")⟩ := by
  unfold userLines
  rw [if_pos (Or.inl hpn), if_pos hpn, if_neg hpw]
  simp only [List.cons_append, List.nil_append, List.singleton_append, List.foldl_cons,
    List.foldl_nil, exLine_hdr_user, exLine_blank]
  rw [exLine_kv_upn _ rfl _ hv1 hvne1]

theorem foldl_user_pw (st : ExState) (r : List (String × String))
    (hpn : ¬ get_value r "user_profile_name" "" ≠ "")
    (hpw : get_value r "user_profile_password" "" ≠ "")
    (hv2 : stripChars (get_value r "user_profile_password" "").data =
      (get_value r "user_profile_password" "").data)
    (hvne2 : (get_value r "user_profile_password" "").data ≠ []) :
    List.foldl exLine st (userLines r) =
      ⟨some "user_account",
        kvIns st.data "user_profile_password" (get_value r "user_profile_password" "")⟩ := by
  unfold userLines
  rw [if_pos (Or.inr hpw), if_neg hpn, if_pos hpw]
  simp only [List.cons_append, List.nil_append, List.singleton_append, List.foldl_cons,
    List.foldl_nil, exLine_hdr_user, exLine_blank]
  rw [exLine_kv_upw _ rfl _ hv2 hvne2]

theorem foldl_user_neg (st : ExState) (r : List (String × String))
    (hpn : ¬ get_value r "user_profile_name" "" ≠ "")
    (hpw : ¬ get_value r "user_profile_password" "" ≠ "") :
    List.foldl exLine st (userLines r) = st := by
  unfold userLines
  rw [if_neg (fun h => h.elim hpn hpw)]
  rfl

theorem foldl_int_pos (st : ExState) (r : List (String × String))
    (hcond : get_value r "internal_ticket_id" "" ≠ "")
    (hv : stripChars (get_value r "internal_ticket_id" "").data =
      (get_value r "internal_ticket_id" "").data)
    (hvne : (get_value r "internal_ticket_id" "").data ≠ []) :
    List.foldl exLine st (intLines r) =
      ⟨some "internal_reference",
        kvIns st.data "internal_ticket_id" (get_value r "internal_ticket_id" "")⟩ := by
  unfold intLines
  rw [if_pos hcond]
  simp only [List.foldl_cons, List.foldl_nil, exLine_hdr_internal, exLine_blank]
  rw [exLine_kv_itid _ rfl _ hv hvne]

/-- Extractor dictionary after the optional accessories block. -/
def mAcc (r : List (String × String)) : List (String × String) :=
  if get_value r "accessories" "None specified" ≠ "None specified" then
    dinsert (mMand r) "accessories" (get_value r "accessories" "None specified")
  else mMand r

/-- Extractor dictionary after the optional additional-comments block. -/
def mCom (r : List (String × String)) : List (String × String) :=
  if get_value r "additional_comments" "" ≠ "" then
    dinsert (mAcc r) "additional_comments" (get_value r "additional_comments" "")
  else mAcc r

/-- Extractor dictionary after the optional profile-name line. -/
def mUser1 (r : List (String × String)) : List (String × String) :=
  if get_value r "user_profile_name" "" ≠ "" then
    kvIns (mCom r) "user_profile_name" (get_value r "user_profile_name" "")
  else mCom r

/-- Extractor dictionary after the optional password line. -/
def mUser2 (r : List (String × String)) : List (String × String) :=
  if get_value r "user_profile_password" "" ≠ "" then
    kvIns (mUser1 r) "user_profile_password" (get_value r "user_profile_password" "")
  else mUser1 r

/-- The full extractor dictionary for a rendered well-formed record with an
internal-reference block. -/
def extractedOf (r : List (String × String)) : List (String × String) :=
  if get_value r "internal_ticket_id" "" ≠ "" then
    kvIns (mUser2 r) "internal_ticket_id" (get_value r "internal_ticket_id" "")
  else mUser2 r

theorem dlookup_mAcc_eq (r : List (String × String)) (k : String)
    (hne : k ≠ "accessories") : dlookup (mAcc r) k = dlookup (mMand r) k := by
  unfold mAcc
  split
  · exact dlookup_dinsert_ne _ _ _ _ (Ne.symm hne)
  · rfl

theorem dlookup_mCom_eq (r : List (String × String)) (k : String)
    (hne : k ≠ "additional_comments") : dlookup (mCom r) k = dlookup (mAcc r) k := by
  unfold mCom
  split
  · exact dlookup_dinsert_ne _ _ _ _ (Ne.symm hne)
  · rfl

theorem dlookup_mUser1_eq (r : List (String × String)) (k : String)
    (hne : k ≠ "user_profile_name") : dlookup (mUser1 r) k = dlookup (mCom r) k := by
  unfold mUser1
  split
  · exact dlookup_kvIns_ne _ _ _ _ (Ne.symm hne)
  · rfl

theorem dlookup_mUser2_eq (r : List (String × String)) (k : String)
    (hne : k ≠ "user_profile_password") : dlookup (mUser2 r) k = dlookup (mUser1 r) k := by
  unfold mUser2
  split
  · exact dlookup_kvIns_ne _ _ _ _ (Ne.symm hne)
  · rfl

theorem dlookup_extractedOf_eq (r : List (String × String)) (k : String)
    (hne : k ≠ "internal_ticket_id") : dlookup (extractedOf r) k = dlookup (mUser2 r) k := by
  unfold extractedOf
  split
  · exact dlookup_kvIns_ne _ _ _ _ (Ne.symm hne)
  · rfl

theorem foldl_acc_sec (r : List (String × String))
    (h13 : wfValB r "accessories" = true) (hcf13 : wfColonFreeB r "accessories" = true) :
    ∃ s : Option String,
      List.foldl exLine ⟨some "fault_description", mMand r⟩ (accLines r) =
        ⟨s, mAcc r⟩ := by
  have hAn : dlookup (mMand r) "accessories" = none :=
    dlookup_mMand_chain_ne r _ (by decide) (by decide) (by decide) (by decide) (by decide)
      (by decide) (by decide) (by decide) (by decide) (by decide) (by decide) (by decide)
  have pacc := gv_props r "accessories" "None specified" h13 (by decide) (by decide) (by decide)
  have pacccf : ':' ∉ (get_value r "accessories" "None specified").data :=
    gv_colon_free r "accessories" "None specified" h13 hcf13 (by decide)
  by_cases hacc : get_value r "accessories" "None specified" ≠ "None specified"
  · refine ⟨some "accessories_included", ?_⟩
    rw [foldl_acc_pos _ r hacc pacc.1 pacc.2.1 pacccf]
    unfold mAcc
    rw [if_pos hacc]
    show (⟨some "accessories_included",
      accum (mMand r) "accessories" ", " (get_value r "accessories" "None specified")⟩ : ExState) = _
    unfold accum
    rw [hAn]
  · refine ⟨some "fault_description", ?_⟩
    rw [foldl_acc_neg _ r hacc]
    unfold mAcc
    rw [if_neg hacc]

theorem foldl_com_sec (r : List (String × String)) (s2 : Option String)
    (h14 : wfValB r "additional_comments" = true)
    (hcf14 : wfColonFreeB r "additional_comments" = true) :
    ∃ s : Option String,
      List.foldl exLine ⟨s2, mAcc r⟩ (comLines r) = ⟨s, mCom r⟩ := by
  have hCn : dlookup (mAcc r) "additional_comments" = none := by
    rw [dlookup_mAcc_eq r _ (by decide)]
    exact dlookup_mMand_chain_ne r _ (by decide) (by decide) (by decide) (by decide) (by decide)
      (by decide) (by decide) (by decide) (by decide) (by decide) (by decide) (by decide)
  by_cases hcom : get_value r "additional_comments" "" ≠ ""
  · have pcom := gv_props_present r "additional_comments" h14 hcom
    have pcomcf : ':' ∉ (get_value r "additional_comments" "").data :=
      gv_colon_free r "additional_comments" "" h14 hcf14 (by decide)
    refine ⟨some "additional_comments", ?_⟩
    rw [foldl_com_pos _ r hcom pcom.1 pcom.2 pcomcf]
    unfold mCom
    rw [if_pos hcom]
    show (⟨some "additional_comments",
      accum (mAcc r) "additional_comments" " " (get_value r "additional_comments" "")⟩ : ExState) = _
    unfold accum
    rw [hCn]
  · refine ⟨s2, ?_⟩
    rw [foldl_com_neg _ r hcom]
    unfold mCom
    rw [if_neg hcom]

theorem foldl_user_sec (r : List (String × String)) (s3 : Option String)
    (h15 : wfValB r "user_profile_name" = true)
    (h16 : wfValB r "user_profile_password" = true) :
    ∃ s : Option String,
      List.foldl exLine ⟨s3, mCom r⟩ (userLines r) = ⟨s, mUser2 r⟩ := by
  by_cases hpn : get_value r "user_profile_name" "" ≠ "" <;>
    by_cases hpw : get_value r "user_profile_password" "" ≠ ""
  · have ppn := gv_props_present r "user_profile_name" h15 hpn
    have ppw := gv_props_present r "user_profile_password" h16 hpw
    refine ⟨some "user_account", ?_⟩
    rw [foldl_user_both _ r hpn hpw ppn.1 ppn.2 ppw.1 ppw.2]
    unfold mUser2 mUser1
    rw [if_pos hpw, if_pos hpn]
  · have ppn := gv_props_present r "user_profile_name" h15 hpn
    refine ⟨some "user_account", ?_⟩
    rw [foldl_user_pn _ r hpn hpw ppn.1 ppn.2]
    unfold mUser2 mUser1
    rw [if_neg hpw, if_pos hpn]
  · have ppw := gv_props_present r "user_profile_password" h16 hpw
    refine ⟨some "user_account", ?_⟩
    rw [foldl_user_pw _ r hpn hpw ppw.1 ppw.2]
    unfold mUser2 mUser1
    rw [if_pos hpw, if_neg hpn]
  · refine ⟨s3, ?_⟩
    rw [foldl_user_neg _ r hpn hpw]
    unfold mUser2 mUser1
    rw [if_neg hpw, if_neg hpn]

theorem foldl_int_sec (r : List (String × String)) (s4 : Option String)
    (h17 : wfValB r "internal_ticket_id" = true)
    (hint : get_value r "internal_ticket_id" "" ≠ "") :
    List.foldl exLine ⟨s4, mUser2 r⟩ (intLines r) =
      ⟨some "internal_reference", extractedOf r⟩ := by
  have pint := gv_props_present r "internal_ticket_id" h17 hint
  rw [foldl_int_pos _ r hint pint.1 pint.2]
  unfold extractedOf
  rw [if_pos hint]

theorem extract_format_eq (r : List (String × String))
    (h1 : wfValB r "contact_name" = true) (h2 : wfValB r "business_name" = true)
    (h3 : wfValB r "contact_phone" = true) (h4 : wfValB r "contact_email" = true)
    (h5 : wfValB r "equipment_type" = true) (h6 : wfValB r "equipment_brand" = true)
    (h7 : wfValB r "equipment_model" = true) (h8 : wfValB r "serial_number" = true)
    (h9 : wfValB r "store_location" = true) (h10 : wfValB r "repair_date" = true)
    (h11 : wfValB r "repair_time" = true) (h12 : wfValB r "fault_description" = true)
    (h13 : wfValB r "accessories" = true) (h14 : wfValB r "additional_comments" = true)
    (h15 : wfValB r "user_profile_name" = true)
    (h16 : wfValB r "user_profile_password" = true)
    (h17 : wfValB r "internal_ticket_id" = true)
    (hcf12 : wfColonFreeB r "fault_description" = true)
    (hcf13 : wfColonFreeB r "accessories" = true)
    (hcf14 : wfColonFreeB r "additional_comments" = true)
    (hint : get_value r "internal_ticket_id" "" ≠ "") :
    extract_from_structured_message (format_ticket_description_clean r) = extractedOf r := by
  unfold extract_from_structured_message
  rw [splitLines_format r h1 h2 h3 h4 h5 h6 h7 h8 h9 h10 h11 h12 h13 h14 h15 h16 h17]
  simp only [formatLines, List.foldl_append]
  rw [foldl_mandatory r h1 h2 h3 h4 h5 h6 h7 h8 h9 h10 h11 h12 hcf12]
  obtain ⟨s2, hA⟩ := foldl_acc_sec r h13 hcf13
  rw [hA]
  obtain ⟨s3, hC⟩ := foldl_com_sec r s2 h14 hcf14
  rw [hC]
  obtain ⟨s4, hU⟩ := foldl_user_sec r s3 h15 h16
  rw [hU]
  rw [foldl_int_sec r s4 h17 hint]
  simp only [List.foldl_cons, List.foldl_nil, exLine_marker_internal]

theorem lookup_mMand_contact_name (r : List (String × String)) (v : String)
    (h : wfValB r "contact_name" = true) (hv : dlookup r "contact_name" = some v) :
    dlookup (mMand r) "contact_name" = some v := by
  have hgv := gv_some r "contact_name" "Not provided" v h hv
  rcases wfValB_spec r _ v h hv with ⟨hw1, hvne, hw3, hnp⟩
  have hvne2 : v ≠ "" := fun e => hvne (congrArg String.data e)
  unfold mMand
  rw [dlookup_dinsert_ne _ _ _ _ (by decide)]
  rw [dlookup_kvIns_ne _ _ _ _ (by decide)]
  rw [dlookup_kvIns_ne _ _ _ _ (by decide)]
  rw [dlookup_kvIns_ne _ _ _ _ (by decide)]
  rw [dlookup_kvIns_ne _ _ _ _ (by decide)]
  rw [dlookup_kvIns_ne _ _ _ _ (by decide)]
  rw [dlookup_kvIns_ne _ _ _ _ (by decide)]
  rw [dlookup_kvIns_ne _ _ _ _ (by decide)]
  rw [dlookup_kvIns_ne _ _ _ _ (by decide)]
  rw [dlookup_kvIns_ne _ _ _ _ (by decide)]
  rw [dlookup_kvIns_ne _ _ _ _ (by decide)]
  rw [hgv]
  exact dlookup_kvIns_self _ _ _ hvne2 hnp

theorem lookup_mMand_business_name (r : List (String × String)) (v : String)
    (h : wfValB r "business_name" = true) (hv : dlookup r "business_name" = some v) :
    dlookup (mMand r) "business_name" = some v := by
  have hgv := gv_some r "business_name" "Not provided" v h hv
  rcases wfValB_spec r _ v h hv with ⟨hw1, hvne, hw3, hnp⟩
  have hvne2 : v ≠ "" := fun e => hvne (congrArg String.data e)
  unfold mMand
  rw [dlookup_dinsert_ne _ _ _ _ (by decide)]
  rw [dlookup_kvIns_ne _ _ _ _ (by decide)]
  rw [dlookup_kvIns_ne _ _ _ _ (by decide)]
  rw [dlookup_kvIns_ne _ _ _ _ (by decide)]
  rw [dlookup_kvIns_ne _ _ _ _ (by decide)]
  rw [dlookup_kvIns_ne _ _ _ _ (by decide)]
  rw [dlookup_kvIns_ne _ _ _ _ (by decide)]
  rw [dlookup_kvIns_ne _ _ _ _ (by decide)]
  rw [dlookup_kvIns_ne _ _ _ _ (by decide)]
  rw [dlookup_kvIns_ne _ _ _ _ (by decide)]
  rw [hgv]
  exact dlookup_kvIns_self _ _ _ hvne2 hnp

theorem lookup_mMand_contact_phone (r : List (String × String)) (v : String)
    (h : wfValB r "contact_phone" = true) (hv : dlookup r "contact_phone" = some v) :
    dlookup (mMand r) "contact_phone" = some v := by
  have hgv := gv_some r "contact_phone" "Not provided" v h hv
  rcases wfValB_spec r _ v h hv with ⟨hw1, hvne, hw3, hnp⟩
  have hvne2 : v ≠ "" := fun e => hvne (congrArg String.data e)
  unfold mMand
  rw [dlookup_dinsert_ne _ _ _ _ (by decide)]
  rw [dlookup_kvIns_ne _ _ _ _ (by decide)]
  rw [dlookup_kvIns_ne _ _ _ _ (by decide)]
  rw [dlookup_kvIns_ne _ _ _ _ (by decide)]
  rw [dlookup_kvIns_ne _ _ _ _ (by decide)]
  rw [dlookup_kvIns_ne _ _ _ _ (by decide)]
  rw [dlookup_kvIns_ne _ _ _ _ (by decide)]
  rw [dlookup_kvIns_ne _ _ _ _ (by decide)]
  rw [dlookup_kvIns_ne _ _ _ _ (by decide)]
  rw [hgv]
  exact dlookup_kvIns_self _ _ _ hvne2 hnp

theorem lookup_mMand_contact_email (r : List (String × String)) (v : String)
    (h : wfValB r "contact_email" = true) (hv : dlookup r "contact_email" = some v) :
    dlookup (mMand r) "contact_email" = some v := by
  have hgv := gv_some r "contact_email" "Not provided" v h hv
  rcases wfValB_spec r _ v h hv with ⟨hw1, hvne, hw3, hnp⟩
  have hvne2 : v ≠ "" := fun e => hvne (congrArg String.data e)
  unfold mMand
  rw [dlookup_dinsert_ne _ _ _ _ (by decide)]
  rw [dlookup_kvIns_ne _ _ _ _ (by decide)]
  rw [dlookup_kvIns_ne _ _ _ _ (by decide)]
  rw [dlookup_kvIns_ne _ _ _ _ (by decide)]
  rw [dlookup_kvIns_ne _ _ _ _ (by decide)]
  rw [dlookup_kvIns_ne _ _ _ _ (by decide)]
  rw [dlookup_kvIns_ne _ _ _ _ (by decide)]
  rw [dlookup_kvIns_ne _ _ _ _ (by decide)]
  rw [hgv]
  exact dlookup_kvIns_self _ _ _ hvne2 hnp

theorem lookup_mMand_equipment_type (r : List (String × String)) (v : String)
    (h : wfValB r "equipment_type" = true) (hv : dlookup r "equipment_type" = some v) :
    dlookup (mMand r) "equipment_type" = some v := by
  have hgv := gv_some r "equipment_type" "Not specified" v h hv
  rcases wfValB_spec r _ v h hv with ⟨hw1, hvne, hw3, hnp⟩
  have hvne2 : v ≠ "" := fun e => hvne (congrArg String.data e)
  unfold mMand
  rw [dlookup_dinsert_ne _ _ _ _ (by decide)]
  rw [dlookup_kvIns_ne _ _ _ _ (by decide)]
  rw [dlookup_kvIns_ne _ _ _ _ (by decide)]
  rw [dlookup_kvIns_ne _ _ _ _ (by decide)]
  rw [dlookup_kvIns_ne _ _ _ _ (by decide)]
  rw [dlookup_kvIns_ne _ _ _ _ (by decide)]
  rw [dlookup_kvIns_ne _ _ _ _ (by decide)]
  rw [hgv]
  exact dlookup_kvIns_self _ _ _ hvne2 hnp

theorem lookup_mMand_equipment_brand (r : List (String × String)) (v : String)
    (h : wfValB r "equipment_brand" = true) (hv : dlookup r "equipment_brand" = some v) :
    dlookup (mMand r) "equipment_brand" = some v := by
  have hgv := gv_some r "equipment_brand" "Not specified" v h hv
  rcases wfValB_spec r _ v h hv with ⟨hw1, hvne, hw3, hnp⟩
  have hvne2 : v ≠ "" := fun e => hvne (congrArg String.data e)
  unfold mMand
  rw [dlookup_dinsert_ne _ _ _ _ (by decide)]
  rw [dlookup_kvIns_ne _ _ _ _ (by decide)]
  rw [dlookup_kvIns_ne _ _ _ _ (by decide)]
  rw [dlookup_kvIns_ne _ _ _ _ (by decide)]
  rw [dlookup_kvIns_ne _ _ _ _ (by decide)]
  rw [dlookup_kvIns_ne _ _ _ _ (by decide)]
  rw [hgv]
  exact dlookup_kvIns_self _ _ _ hvne2 hnp

theorem lookup_mMand_equipment_model (r : List (String × String)) (v : String)
    (h : wfValB r "equipment_model" = true) (hv : dlookup r "equipment_model" = some v) :
    dlookup (mMand r) "equipment_model" = some v := by
  have hgv := gv_some r "equipment_model" "Not specified" v h hv
  rcases wfValB_spec r _ v h hv with ⟨hw1, hvne, hw3, hnp⟩
  have hvne2 : v ≠ "" := fun e => hvne (congrArg String.data e)
  unfold mMand
  rw [dlookup_dinsert_ne _ _ _ _ (by decide)]
  rw [dlookup_kvIns_ne _ _ _ _ (by decide)]
  rw [dlookup_kvIns_ne _ _ _ _ (by decide)]
  rw [dlookup_kvIns_ne _ _ _ _ (by decide)]
  rw [dlookup_kvIns_ne _ _ _ _ (by decide)]
  rw [hgv]
  exact dlookup_kvIns_self _ _ _ hvne2 hnp

theorem lookup_mMand_serial_number (r : List (String × String)) (v : String)
    (h : wfValB r "serial_number" = true) (hv : dlookup r "serial_number" = some v) :
    dlookup (mMand r) "serial_number" = some v := by
  have hgv := gv_some r "serial_number" "Not provided" v h hv
  rcases wfValB_spec r _ v h hv with ⟨hw1, hvne, hw3, hnp⟩
  have hvne2 : v ≠ "" := fun e => hvne (congrArg String.data e)
  unfold mMand
  rw [dlookup_dinsert_ne _ _ _ _ (by decide)]
  rw [dlookup_kvIns_ne _ _ _ _ (by decide)]
  rw [dlookup_kvIns_ne _ _ _ _ (by decide)]
  rw [dlookup_kvIns_ne _ _ _ _ (by decide)]
  rw [hgv]
  exact dlookup_kvIns_self _ _ _ hvne2 hnp

theorem lookup_mMand_store_location (r : List (String × String)) (v : String)
    (h : wfValB r "store_location" = true) (hv : dlookup r "store_location" = some v) :
    dlookup (mMand r) "store_location" = some v := by
  have hgv := gv_some r "store_location" "Not specified" v h hv
  rcases wfValB_spec r _ v h hv with ⟨hw1, hvne, hw3, hnp⟩
  have hvne2 : v ≠ "" := fun e => hvne (congrArg String.data e)
  unfold mMand
  rw [dlookup_dinsert_ne _ _ _ _ (by decide)]
  rw [dlookup_kvIns_ne _ _ _ _ (by decide)]
  rw [dlookup_kvIns_ne _ _ _ _ (by decide)]
  rw [hgv]
  exact dlookup_kvIns_self _ _ _ hvne2 hnp

theorem lookup_mMand_repair_date (r : List (String × String)) (v : String)
    (h : wfValB r "repair_date" = true) (hv : dlookup r "repair_date" = some v) :
    dlookup (mMand r) "repair_date" = some v := by
  have hgv := gv_some r "repair_date" "Not specified" v h hv
  rcases wfValB_spec r _ v h hv with ⟨hw1, hvne, hw3, hnp⟩
  have hvne2 : v ≠ "" := fun e => hvne (congrArg String.data e)
  unfold mMand
  rw [dlookup_dinsert_ne _ _ _ _ (by decide)]
  rw [dlookup_kvIns_ne _ _ _ _ (by decide)]
  rw [hgv]
  exact dlookup_kvIns_self _ _ _ hvne2 hnp

theorem lookup_mMand_repair_time (r : List (String × String)) (v : String)
    (h : wfValB r "repair_time" = true) (hv : dlookup r "repair_time" = some v) :
    dlookup (mMand r) "repair_time" = some v := by
  have hgv := gv_some r "repair_time" "Not specified" v h hv
  rcases wfValB_spec r _ v h hv with ⟨hw1, hvne, hw3, hnp⟩
  have hvne2 : v ≠ "" := fun e => hvne (congrArg String.data e)
  unfold mMand
  rw [dlookup_dinsert_ne _ _ _ _ (by decide)]
  rw [hgv]
  exact dlookup_kvIns_self _ _ _ hvne2 hnp

theorem lookup_mMand_fault (r : List (String × String)) (v : String)
    (h : wfValB r "fault_description" = true)
    (hv : dlookup r "fault_description" = some v) :
    dlookup (mMand r) "fault_description" = some v := by
  have hgv := gv_some r "fault_description" "No description provided" v h hv
  unfold mMand
  rw [hgv]
  exact dlookup_dinsert_self _ _ _

theorem lookup_mUser1_upn (r : List (String × String)) (v : String)
    (h : wfValB r "user_profile_name" = true)
    (hv : dlookup r "user_profile_name" = some v) :
    dlookup (mUser1 r) "user_profile_name" = some v := by
  have hgv := gv_some r "user_profile_name" "" v h hv
  rcases wfValB_spec r _ v h hv with ⟨hw1, hvne, hw3, hnp⟩
  have hvne2 : v ≠ "" := fun e => hvne (congrArg String.data e)
  have hcond : get_value r "user_profile_name" "" ≠ "" := by
    rw [hgv]
    exact hvne2
  unfold mUser1
  rw [if_pos hcond, hgv]
  exact dlookup_kvIns_self _ _ _ hvne2 hnp

theorem lookup_mUser2_upw (r : List (String × String)) (v : String)
    (h : wfValB r "user_profile_password" = true)
    (hv : dlookup r "user_profile_password" = some v) :
    dlookup (mUser2 r) "user_profile_password" = some v := by
  have hgv := gv_some r "user_profile_password" "" v h hv
  rcases wfValB_spec r _ v h hv with ⟨hw1, hvne, hw3, hnp⟩
  have hvne2 : v ≠ "" := fun e => hvne (congrArg String.data e)
  have hcond : get_value r "user_profile_password" "" ≠ "" := by
    rw [hgv]
    exact hvne2
  unfold mUser2
  rw [if_pos hcond, hgv]
  exact dlookup_kvIns_self _ _ _ hvne2 hnp

theorem lookup_extractedOf_itid (r : List (String × String)) (v : String)
    (h : wfValB r "internal_ticket_id" = true)
    (hv : dlookup r "internal_ticket_id" = some v) :
    dlookup (extractedOf r) "internal_ticket_id" = some v := by
  have hgv := gv_some r "internal_ticket_id" "" v h hv
  rcases wfValB_spec r _ v h hv with ⟨hw1, hvne, hw3, hnp⟩
  have hvne2 : v ≠ "" := fun e => hvne (congrArg String.data e)
  have hcond : get_value r "internal_ticket_id" "" ≠ "" := by
    rw [hgv]
    exact hvne2
  unfold extractedOf
  rw [if_pos hcond, hgv]
  exact dlookup_kvIns_self _ _ _ hvne2 hnp

/-- The scalar fields that the formatter renders as recoverable lines and the
extractor maps back to the same key (accessories and additional_comments are
excluded as the intentionally joined free-form fields). -/
def roundtripKeys : List String :=
  ["contact_name", "business_name", "contact_phone", "contact_email",
   "equipment_type", "equipment_brand", "equipment_model", "serial_number",
   "store_location", "repair_date", "repair_time", "fault_description",
   "user_profile_name", "user_profile_password", "internal_ticket_id"]

/-- C7: for a well-formed mapped record (trimmed, non-empty, newline-free,
non-placeholder values; colon-free free-form fields) that carries an
`internal_ticket_id` (so the rendering ends with a trailing block after the
fault-description section), running `extract_from_structured_message` on
`format_ticket_description_clean`'s output reproduces every present field
among the fifteen recoverable scalar fields exactly; accessories and
additional comments (the intentionally joined free-form fields) are excluded,
and fields the formatter never renders (such as `full_message`) are not
reproduced. -/
theorem C7_roundtrip (r : List (String × String))
    (h1 : wfValB r "contact_name" = true) (h2 : wfValB r "business_name" = true)
    (h3 : wfValB r "contact_phone" = true) (h4 : wfValB r "contact_email" = true)
    (h5 : wfValB r "equipment_type" = true) (h6 : wfValB r "equipment_brand" = true)
    (h7 : wfValB r "equipment_model" = true) (h8 : wfValB r "serial_number" = true)
    (h9 : wfValB r "store_location" = true) (h10 : wfValB r "repair_date" = true)
    (h11 : wfValB r "repair_time" = true) (h12 : wfValB r "fault_description" = true)
    (h13 : wfValB r "accessories" = true) (h14 : wfValB r "additional_comments" = true)
    (h15 : wfValB r "user_profile_name" = true)
    (h16 : wfValB r "user_profile_password" = true)
    (h17 : wfValB r "internal_ticket_id" = true)
    (hcf12 : wfColonFreeB r "fault_description" = true)
    (hcf13 : wfColonFreeB r "accessories" = true)
    (hcf14 : wfColonFreeB r "additional_comments" = true)
    (hint : get_value r "internal_ticket_id" "" ≠ "") :
    ∀ k v, k ∈ roundtripKeys → dlookup r k = some v →
      dlookup (extract_from_structured_message (format_ticket_description_clean r)) k =
        some v := by
  intro k v hk hv
  rw [extract_format_eq r h1 h2 h3 h4 h5 h6 h7 h8 h9 h10 h11 h12 h13 h14 h15 h16 h17
    hcf12 hcf13 hcf14 hint]
  simp only [roundtripKeys, List.mem_cons, List.not_mem_nil, or_false] at hk
  rcases hk with rfl | rfl | rfl | rfl | rfl | rfl | rfl | rfl | rfl | rfl | rfl | rfl | rfl | rfl | rfl
  · rw [dlookup_extractedOf_eq r _ (by decide), dlookup_mUser2_eq r _ (by decide),
      dlookup_mUser1_eq r _ (by decide), dlookup_mCom_eq r _ (by decide),
      dlookup_mAcc_eq r _ (by decide)]
    exact lookup_mMand_contact_name r v h1 hv
  · rw [dlookup_extractedOf_eq r _ (by decide), dlookup_mUser2_eq r _ (by decide),
      dlookup_mUser1_eq r _ (by decide), dlookup_mCom_eq r _ (by decide),
      dlookup_mAcc_eq r _ (by decide)]
    exact lookup_mMand_business_name r v h2 hv
  · rw [dlookup_extractedOf_eq r _ (by decide), dlookup_mUser2_eq r _ (by decide),
      dlookup_mUser1_eq r _ (by decide), dlookup_mCom_eq r _ (by decide),
      dlookup_mAcc_eq r _ (by decide)]
    exact lookup_mMand_contact_phone r v h3 hv
  · rw [dlookup_extractedOf_eq r _ (by decide), dlookup_mUser2_eq r _ (by decide),
      dlookup_mUser1_eq r _ (by decide), dlookup_mCom_eq r _ (by decide),
      dlookup_mAcc_eq r _ (by decide)]
    exact lookup_mMand_contact_email r v h4 hv
  · rw [dlookup_extractedOf_eq r _ (by decide), dlookup_mUser2_eq r _ (by decide),
      dlookup_mUser1_eq r _ (by decide), dlookup_mCom_eq r _ (by decide),
      dlookup_mAcc_eq r _ (by decide)]
    exact lookup_mMand_equipment_type r v h5 hv
  · rw [dlookup_extractedOf_eq r _ (by decide), dlookup_mUser2_eq r _ (by decide),
      dlookup_mUser1_eq r _ (by decide), dlookup_mCom_eq r _ (by decide),
      dlookup_mAcc_eq r _ (by decide)]
    exact lookup_mMand_equipment_brand r v h6 hv
  · rw [dlookup_extractedOf_eq r _ (by decide), dlookup_mUser2_eq r _ (by decide),
      dlookup_mUser1_eq r _ (by decide), dlookup_mCom_eq r _ (by decide),
      dlookup_mAcc_eq r _ (by decide)]
    exact lookup_mMand_equipment_model r v h7 hv
  · rw [dlookup_extractedOf_eq r _ (by decide), dlookup_mUser2_eq r _ (by decide),
      dlookup_mUser1_eq r _ (by decide), dlookup_mCom_eq r _ (by decide),
      dlookup_mAcc_eq r _ (by decide)]
    exact lookup_mMand_serial_number r v h8 hv
  · rw [dlookup_extractedOf_eq r _ (by decide), dlookup_mUser2_eq r _ (by decide),
      dlookup_mUser1_eq r _ (by decide), dlookup_mCom_eq r _ (by decide),
      dlookup_mAcc_eq r _ (by decide)]
    exact lookup_mMand_store_location r v h9 hv
  · rw [dlookup_extractedOf_eq r _ (by decide), dlookup_mUser2_eq r _ (by decide),
      dlookup_mUser1_eq r _ (by decide), dlookup_mCom_eq r _ (by decide),
      dlookup_mAcc_eq r _ (by decide)]
    exact lookup_mMand_repair_date r v h10 hv
  · rw [dlookup_extractedOf_eq r _ (by decide), dlookup_mUser2_eq r _ (by decide),
      dlookup_mUser1_eq r _ (by decide), dlookup_mCom_eq r _ (by decide),
      dlookup_mAcc_eq r _ (by decide)]
    exact lookup_mMand_repair_time r v h11 hv
  · rw [dlookup_extractedOf_eq r _ (by decide), dlookup_mUser2_eq r _ (by decide),
      dlookup_mUser1_eq r _ (by decide), dlookup_mCom_eq r _ (by decide),
      dlookup_mAcc_eq r _ (by decide)]
    exact lookup_mMand_fault r v h12 hv
  · rw [dlookup_extractedOf_eq r _ (by decide), dlookup_mUser2_eq r _ (by decide)]
    exact lookup_mUser1_upn r v h15 hv
  · rw [dlookup_extractedOf_eq r _ (by decide)]
    exact lookup_mUser2_upw r v h16 hv
  · exact lookup_extractedOf_itid r v h17 hv

theorem C7_witness :
    dlookup (extract_from_structured_message (format_ticket_description_clean
      [("contact_name", "Jane Doe"), ("fault_description", "Broken screen"),
       ("internal_ticket_id", "T1")])) "contact_name" = some "Jane Doe" :=
  C7_roundtrip
    [("contact_name", "Jane Doe"), ("fault_description", "Broken screen"),
     ("internal_ticket_id", "T1")]
    (by decide) (by decide) (by decide) (by decide) (by decide) (by decide) (by decide)
    (by decide) (by decide) (by decide) (by decide) (by decide) (by decide) (by decide)
    (by decide) (by decide) (by decide) (by decide) (by decide) (by decide) (by decide)
    "contact_name" "Jane Doe" (by decide) (by decide)

/-- With no trailing block after the fault-description section, the extractor
absorbs the closing marker into `fault_description`, and fields the formatter
never renders (here `full_message`) are lost: the round trip is not the
identity on all original fields. -/
theorem C7_counterexample :
    dlookup (extract_from_structured_message (format_ticket_description_clean
      [("fault_description", "Broken screen")])) "fault_description" =
      some ("Broken screen === END OF REPAIR REQUEST ===") ∧
    dlookup (extract_from_structured_message (format_ticket_description_clean
      [("full_message", "hello"), ("internal_ticket_id", "T1")])) "full_message" =
      none := by
  exact ⟨rfl, rfl⟩
